import Mathlib

/-!
Verification of the adaptive RAG serving core of the WealthAdvisor AI
repository: a shallow embedding, in Lean 4, of the hallucination detector,
the confidence scorer and its CA-escalation gate, the sentiment analyzer,
the LinUCB strategy bandit, the weekly RLHF batch pipeline, and the
per-session conversation memory window, together with theorems settling
the specified behavioural properties of those components.

Modelling conventions:
* Python floats are modelled as exact rationals (ℚ) in the string/score
  pipeline and as reals (ℝ) in the linear-algebra bandit code; the
  borderline-free concrete inputs used below make the idealisation exact.
* Python `round(x, n)` (banker's rounding on binary floats) is modelled by
  rational/real rounding to n decimal places; no input used below sits on
  a rounding midpoint, where the two conventions could differ.
* Wall-clock fields (timestamps, processing_ms), logging, and file/queue
  persistence side effects carry no information for the properties proved
  here and are omitted from the embedded result records.
-/

namespace WealthRec

/-! ## Python string primitives

The detector, scorer and sentiment modules only use lowercase conversion,
substring membership, whitespace splitting and character removal; the
inputs below are ASCII (plus the rupee sign, which lowercasing fixes), so
these List-Char implementations agree with the Python originals. -/

/-- Python str.lower, character by character (ASCII inputs). -/
def lowerL (l : List Char) : List Char := l.map Char.toLower

/-- Test whether the first list is a prefix of the second (Bool-valued). -/
def beginsWith : List Char → List Char → Bool
  | [], _ => true
  | _ :: _, [] => false
  | p :: ps, c :: cs => p == c && beginsWith ps cs

/-- Python substring membership: pat appears contiguously in text. -/
def containsSub (pat : List Char) : List Char → Bool
  | [] => beginsWith pat []
  | c :: cs => beginsWith pat (c :: cs) || containsSub pat cs

/-- Python `needle in hay` on strings. -/
def pyIn (needle hay : String) : Bool := containsSub needle.toList hay.toList

/-- ASCII whitespace, as recognised by Python str.split and \s. -/
def isWs (c : Char) : Bool :=
  c == ' ' || c == '\t' || c == '\n' || c == '\r' || c == '\x0c' || c == '\x0b'

def isDigitB (c : Char) : Bool := '0' ≤ c && c ≤ '9'

/-- Python \w word characters (ASCII letters, digits, underscore). -/
def isWordChar (c : Char) : Bool :=
  ('a' ≤ c && c ≤ 'z') || ('A' ≤ c && c ≤ 'Z') || isDigitB c || c == '_'

/-- Python len(s.split()): number of maximal non-whitespace runs. -/
def splitCountAux : List Char → Bool → ℕ
  | [], _ => 0
  | c :: cs, inWord =>
    if isWs c then splitCountAux cs false
    else (if inWord then 0 else 1) + splitCountAux cs true

def pySplitCount (s : String) : ℕ := splitCountAux s.toList false

/-- Python s.replace(c, "") for a set of characters. -/
def removeChars (bad : List Char) (l : List Char) : List Char :=
  l.filter (fun c => !(bad.contains c))

/-- Python s.strip() (ASCII whitespace). -/
def stripWs (l : List Char) : List Char :=
  ((l.dropWhile isWs).reverse.dropWhile isWs).reverse

/-- Apostrophe character (written by code point). -/
def apoC : Char := Char.ofNat 39

def apoS : String := String.mk [apoC]

/-- Rational rounding to 4 decimal places, modelling Python round(x, 4). -/
def round4 (q : ℚ) : ℚ := ((round (q * 10000) : ℤ) : ℚ) / 10000

/-- Rational rounding to 3 decimal places, modelling Python round(x, 3). -/
def round3 (q : ℚ) : ℚ := ((round (q * 1000) : ℤ) : ℚ) / 1000

end WealthRec

namespace HalluDet

/-! ## hallucination_detector.py

Embedding of HallucinationDetector and the FACT_REGISTRY table.  Severity
strings, hallucination-type tags and the registry strings are copied from
the source; the human-readable explanation text is not modelled. -/

open WealthRec

/-- Registry entry (one value of the FACT_REGISTRY dict); absent keys of
the Python dict become empty-list defaults, matching fact.get(k, []). -/
structure Fact where
  key : String
  description : String
  expectedRates : List String := []
  wrongRates : List String := []
  expectedAmounts : List String := []
  wrongAmounts : List String := []
  expectedLimits : List String := []
  triggerPhrases : List String := []
  category : String

def FACT_REGISTRY : List Fact := [
  { key := "new_regime_slab_3l_5l",
    description := "New regime: ₹3–7 lakh → 5%",
    expectedRates := ["5%"],
    triggerPhrases := ["3 lakh to 7", "3-7 lakh", "3l to 7l", "5% slab"],
    category := "regime" },
  { key := "new_regime_slab_above_15l",
    description := "New regime: above ₹15 lakh → 30%",
    expectedRates := ["30%"],
    triggerPhrases := ["above 15 lakh", "above ₹15", "above rs 15"],
    category := "regime" },
  { key := "87a_rebate_new_regime",
    description := "Sec 87A rebate new regime: ₹25,000 if income ≤ ₹7 lakh",
    expectedAmounts := ["25000", "25,000"],
    expectedLimits := ["7 lakh", "₹7"],
    category := "regime" },
  { key := "87a_rebate_old_regime",
    description := "Sec 87A rebate old regime: ₹12,500 if income ≤ ₹5 lakh",
    expectedAmounts := ["12500", "12,500"],
    expectedLimits := ["5 lakh", "₹5"],
    category := "regime" },
  { key := "stcg_111a_rate",
    description := "STCG u/s 111A on equity: 20% (from 23 July 2024)",
    expectedRates := ["20%"],
    wrongRates := ["15%"],
    triggerPhrases := ["stcg", "short term capital gain", "section 111a", "111a"],
    category := "capital_gains" },
  { key := "ltcg_112a_rate",
    description := "LTCG u/s 112A on equity: 12.5% (from 23 July 2024)",
    expectedRates := ["12.5%"],
    wrongRates := ["10%"],
    triggerPhrases := ["ltcg", "long term capital gain", "section 112a", "112a"],
    category := "capital_gains" },
  { key := "ltcg_112a_exemption",
    description := "LTCG 112A exemption: ₹1.25 lakh (was ₹1 lakh before Budget 2024)",
    expectedAmounts := ["1.25 lakh", "1,25,000", "125000"],
    wrongAmounts := ["1 lakh", "100000", "1,00,000"],
    triggerPhrases := ["ltcg exemption", "exempt ltcg", "112a exempt"],
    category := "capital_gains" },
  { key := "tds_194c_individual",
    description := "TDS 194C individual/HUF contractor: 1%",
    expectedRates := ["1%"],
    triggerPhrases := ["194c", "contractor tds", "section 194c individual"],
    category := "tds" },
  { key := "tds_194c_company",
    description := "TDS 194C company contractor: 2%",
    expectedRates := ["2%"],
    triggerPhrases := ["194c company", "contractor tds company"],
    category := "tds" },
  { key := "tds_194ia",
    description := "TDS 194IA on property sale: 1% if > ₹50 lakh",
    expectedRates := ["1%"],
    expectedLimits := ["50 lakh", "₹50"],
    triggerPhrases := ["194ia", "property tds", "immovable property tds"],
    category := "tds" },
  { key := "tds_194j_professional",
    description := "TDS 194J professional services: 10%",
    expectedRates := ["10%"],
    triggerPhrases := ["194j professional", "professional fee tds"],
    category := "tds" },
  { key := "tds_194j_technical",
    description := "TDS 194J technical services: 2%",
    expectedRates := ["2%"],
    triggerPhrases := ["194j technical", "technical service tds"],
    category := "tds" },
  { key := "gst_gold",
    description := "GST on gold: 3%; making charges: 5%",
    expectedRates := ["3%"],
    triggerPhrases := ["gold gst", "gst on gold", "gst jewellery"],
    category := "gst" },
  { key := "gst_making_charges",
    description := "GST on making charges (gold): 5%",
    expectedRates := ["5%"],
    triggerPhrases := ["making charges gst", "gst making"],
    category := "gst" },
  { key := "gst_restaurant_ac",
    description := "GST on restaurant in AC premises: 5% (no ITC)",
    expectedRates := ["5%"],
    triggerPhrases := ["restaurant gst", "gst restaurant ac"],
    category := "gst" },
  { key := "epf_employee",
    description := "EPF employee contribution: 12% of basic",
    expectedRates := ["12%"],
    triggerPhrases := ["epf employee", "pf employee", "provident fund contribution"],
    category := "payroll" },
  { key := "esic_employee",
    description := "ESIC employee contribution: 0.75% of gross",
    expectedRates := ["0.75%"],
    triggerPhrases := ["esic employee", "esi employee contribution"],
    category := "payroll" },
  { key := "esic_employer",
    description := "ESIC employer contribution: 3.25% of gross",
    expectedRates := ["3.25%"],
    triggerPhrases := ["esic employer", "esi employer contribution"],
    category := "payroll" },
  { key := "advance_tax_jun",
    description := "Advance tax June installment: 15% of estimated liability",
    expectedRates := ["15%"],
    triggerPhrases := ["june advance tax", "15 june installment", "advance tax june"],
    category := "advance_tax" },
  { key := "advance_tax_sep",
    description := "Advance tax September installment: 45% cumulative",
    expectedRates := ["45%"],
    triggerPhrases := ["september advance tax", "15 september", "advance tax sep"],
    category := "advance_tax" },
  { key := "advance_tax_dec",
    description := "Advance tax December installment: 75% cumulative",
    expectedRates := ["75%"],
    triggerPhrases := ["december advance tax", "15 december", "advance tax dec"],
    category := "advance_tax" },
  { key := "advance_tax_mar",
    description := "Advance tax March installment: 100% cumulative",
    expectedRates := ["100%"],
    triggerPhrases := ["march advance tax", "15 march", "advance tax march"],
    category := "advance_tax" }
]

/-- Transient finding produced for one failed registry fact.  Both source
branches emit HallucinationType.OUTDATED_RATE; severity is high for a
wrong rate and critical for a wrong amount. -/
structure HallucinationFinding where
  factKey : String
  hallucinationType : String
  description : String
  foundInText : String
  expected : String
  severity : String
deriving DecidableEq

/-- Result record of HallucinationDetector.check (echoed text and the
human-readable explanation string are not carried). -/
structure HallucinationResult where
  category : String
  isHallucination : Bool
  confidence : ℚ
  findings : List HallucinationFinding
  factsChecked : ℕ
  factsPassed : ℕ
  needsCaReview : Bool

/-- Detector._rate_present: space-insensitive lowercase substring test. -/
def ratePresent (textLower : List Char) (rate : String) : Bool :=
  containsSub (removeChars [' '] (lowerL rate.toList)) (removeChars [' '] textLower)

/-- Detector._amount_present: comma/rupee/space-insensitive substring test. -/
def amountPresent (textLower : List Char) (amount : String) : Bool :=
  containsSub (removeChars [',', '₹', ' '] (lowerL amount.toList))
    (removeChars [',', '₹', ' '] textLower)

/-- Detector._check_fact: wrong-rate findings (severity high) followed by
wrong-amount findings (severity critical), in registry-list order. -/
def checkFact (textLower : List Char) (f : Fact) : List HallucinationFinding :=
  (f.wrongRates.filter (ratePresent textLower)).map (fun w =>
    { factKey := f.key, hallucinationType := "outdated_rate",
      description := f.description, foundInText := w,
      expected := String.intercalate ", " f.expectedRates, severity := "high" })
  ++ (f.wrongAmounts.filter (amountPresent textLower)).map (fun w =>
    { factKey := f.key, hallucinationType := "outdated_rate",
      description := f.description, foundInText := w,
      expected := String.intercalate ", " f.expectedAmounts, severity := "critical" })

/-- One trigger phrase of the fact occurs in the lowered answer text. -/
def factTriggered (textLower : List Char) (f : Fact) : Bool :=
  f.triggerPhrases.any (fun tp => containsSub tp.toList textLower)

/-- Loop-guard of HallucinationDetector.check: a fact is skipped (continue)
when its category mismatches a truthy query category and no trigger phrase
occurs, or when it has trigger phrases none of which occurs.  Every
registry entry carries a non-empty category, so the source's truthiness
test on fact["category"] is the non-emptiness test below. -/
def factIncluded (textLower : List Char) (queryCategory : Option String) (f : Fact) : Bool :=
  let anyTrig := factTriggered textLower f
  let catMismatch :=
    match queryCategory with
    | none => false
    | some c => !(c == "") && !(f.category == "") && !(f.category == c)
  if catMismatch && !anyTrig then false
  else if !f.triggerPhrases.isEmpty && !anyTrig then false
  else true

/-- HallucinationDetector.check: one pass over FACT_REGISTRY.  Each fact's
contribution (checked / findings / passed / CA-review flag) is independent
of the others, so the imperative loop is expressed per fact.  The returned
confidence field is rounded to 4 decimals as in the source, while the
hallucination decision uses the unrounded ratio. -/
def check (text : String) (queryCategory : Option String) (threshold : ℚ) :
    HallucinationResult :=
  let textLower := lowerL text.toList
  let included := FACT_REGISTRY.filter (factIncluded textLower queryCategory)
  let factFindings := included.map (fun f => checkFact textLower f)
  let findings := factFindings.foldr (· ++ ·) []
  let factsChecked := included.length
  let factsPassed := (factFindings.filter (fun l => l.isEmpty)).length
  let caReview := factFindings.any (fun l =>
    l.any (fun g => g.severity == "high" || g.severity == "critical"))
  let conf : ℚ :=
    if factsChecked = 0 then 0
    else ((factsChecked : ℚ) - (factsPassed : ℚ)) / (factsChecked : ℚ)
  { category := queryCategory.getD "general",
    isHallucination := decide (threshold ≤ conf) && !findings.isEmpty,
    confidence := WealthRec.round4 conf,
    findings := findings,
    factsChecked := factsChecked,
    factsPassed := factsPassed,
    needsCaReview := caReview }

/-- Module-level check_answer wrapper: the singleton detector is built with
the default threshold 0.3. -/
def checkAnswer (text : String) (queryCategory : Option String) : HallucinationResult :=
  check text queryCategory (3/10)

end HalluDet

namespace ConfScorer

/-! ## confidence_scorer.py

Embedding of ConfidenceScorer.  The QUALITY_MARKERS regular expressions
are compiled with re.IGNORECASE and searched with re.search; each pattern
below is implemented as a direct scanner over the lowercased character
list, trying every start position, which coincides with re.search for
these backreference-free patterns.  The hallucination import succeeds in
the repository, so the HALLUCINATION_AVAILABLE branch is the live one. -/

open WealthRec

/-- Matcher continuation: consume the literal pattern, then run k. -/
def eatLit : List Char → List Char → Option (List Char)
  | [], t => some t
  | _ :: _, [] => none
  | p :: ps, c :: cs => if p == c then eatLit ps cs else none

/-- Search: some suffix of the text starts with pat and its remainder
satisfies the continuation k (re.search of a pattern lit-then-k). -/
def searchPat (pat : List Char) (k : List Char → Bool) : List Char → Bool
  | [] =>
    match eatLit pat [] with
    | some r => k r
    | none => false
  | c :: cs =>
    (match eatLit pat (c :: cs) with
     | some r => k r
     | none => false) || searchPat pat k cs

/-- Continuation for \s* followed by k. -/
def wsStarCont (k : List Char → Bool) : List Char → Bool
  | [] => k []
  | c :: cs => if isWs c then wsStarCont k cs else k (c :: cs)

/-- Continuation for \s+ followed by k. -/
def wsPlusCont (k : List Char → Bool) : List Char → Bool
  | [] => false
  | c :: cs => isWs c && wsStarCont k cs

/-- Continuation requiring the next character to satisfy p. -/
def headIs (p : Char → Bool) : List Char → Bool
  | [] => false
  | c :: _ => p c

/-- Tail of \d+(?:\.\d+)?% after the dot: \d+ then %. -/
def fracTail2 : List Char → Bool
  | [] => false
  | c :: cs => if isDigitB c then fracTail2 cs else c == '%'

def fracTail : List Char → Bool
  | [] => false
  | c :: cs => isDigitB c && fracTail2 cs

/-- Tail of \d+(?:\.\d+)?% after at least one digit. -/
def percentTail : List Char → Bool
  | [] => false
  | c :: cs =>
    if isDigitB c then percentTail cs
    else if c == '%' then true
    else if c == '.' then fracTail cs
    else false

/-- Match of \d+(?:\.\d+)?% starting at the head of the list. -/
def percentAt : List Char → Bool
  | [] => false
  | c :: cs => isDigitB c && percentTail cs

/-- QUALITY_MARKERS positive patterns, in source order, as searchers over
the lowercased answer text (equivalent to IGNORECASE search on the raw
answer for these ASCII patterns). -/
def positiveMarkers : List (List Char → Bool) := [
  searchPat "section".toList (wsPlusCont (headIs isDigitB)),
  searchPat "₹".toList (headIs (fun c => isDigitB c || c == ',' || c == '.')),
  searchPat [] percentAt,
  searchPat "fy".toList (wsStarCont (fun l =>
    beginsWith "20".toList l && (headIs isDigitB (l.drop 2) && headIs isDigitB (l.drop 3)))),
  searchPat "form".toList (wsPlusCont (headIs isDigitB)),
  searchPat "schedule".toList (wsPlusCont (headIs isWordChar))
]

/-- QUALITY_MARKERS negative patterns: each alternation is expanded into
its finitely many literal phrases (apostrophes written via apoS). -/
def negativeMarkerPhrases : List (List String) := [
  ["i don" ++ apoS ++ "t know", "i dont know"],
  ["i" ++ apoS ++ "m not sure", "im not sure"],
  ["cannot provide", "cannot give", "cannot tell"],
  ["consult a ca professional", "consult a ca advisor", "consult a ca expert",
   "consult a tax professional", "consult a tax advisor", "consult a tax expert",
   "consult a financial professional", "consult a financial advisor",
   "consult a financial expert"],
  ["beyond my knowledge", "beyond my scope", "beyond my expertise"],
  ["this is not tax advice", "this is not financial advice", "this is not legal advice"]
]

/-- COMPLEXITY_KEYWORDS high list (source order, duplicate preserved). -/
def complexityHigh : List String := [
  "notice", "scrutiny", "penalty", "prosecution", "144", "148", "263", "271",
  "revised return", "rectification", "search and seizure", "appeal",
  "tribunal", "high court", "itat", "compounding", "prosecution",
  "foreign income", "dtaa", "form 15ca", "form 15cb"]

/-- COMPLEXITY_KEYWORDS medium list. -/
def complexityMedium : List String := [
  "carry forward", "set off", "loss adjustment", "indexation",
  "splitting income", "huf", "clubbing", "deemed income",
  "perquisite", "gratuity limit", "vrs exemption"]

/-- Signals from the RAG retrieval step (RetrievalSignals dataclass). -/
structure RetrievalSignals where
  topSimilarityScore : ℚ := 0
  avgSimilarityScore : ℚ := 0
  numChunksRetrieved : ℕ := 0
  chunkDiversity : ℚ := 0
  hasExactMatch : Bool := false

/-- Scorer._retrieval_score. -/
def retrievalScore : Option RetrievalSignals → ℚ
  | none => 1/2
  | some r =>
    min 1 r.topSimilarityScore * (2/5) + min 1 r.avgSimilarityScore * (3/10)
    + min 1 r.chunkDiversity * (3/20) + min 1 ((r.numChunksRetrieved : ℚ) / 4) * (3/20)

/-- Scorer._complexity_penalty: 0.4 / 0.65 / 1.0 multiplier. -/
def complexityPenalty (query answer : String) : ℚ :=
  let combined := lowerL (query ++ " " ++ answer).toList
  if complexityHigh.any (fun kw => containsSub kw.toList combined) then 2/5
  else if complexityMedium.any (fun kw => containsSub kw.toList combined) then 13/20
  else 1

/-- Scorer._answer_quality_score.  len(positive_patterns) = 6, so the
denominator max(2, 6*0.4) is max 2 (12/5). -/
def answerQualityScore (answer : String) : ℚ :=
  let la := lowerL answer.toList
  let positive : ℕ := positiveMarkers.countP (fun m => m la)
  let negative : ℕ := negativeMarkerPhrases.countP (fun alts =>
    alts.any (fun p => containsSub p.toList la))
  let score := min 1 ((positive : ℚ) / max 2 ((6 : ℚ) * (2/5)))
  max 0 (score - min (1/2) ((negative : ℚ) * (3/20)))

/-- Scorer._length_score. -/
def lengthScore (answer : String) : ℚ :=
  let tokens := pySplitCount answer
  if tokens < 20 then 1/5
  else if tokens < 50 then 3/5
  else if tokens < 500 then 1
  else 4/5

/-- Reason tag of the escalation branch taken (the source stores a
formatted human-readable string here). -/
inductive EscalationReason where
  | hallucinationDetected
  | lowConfidence
deriving DecidableEq

/-- Result record of ConfidenceScorer.score.  The confidence field and the
component sub-scores are rounded to 4 decimals exactly as in the source;
the escalation / disclaimer decisions are taken on the unrounded value. -/
structure ConfidenceResult where
  query : String
  answer : String
  category : String
  confidence : ℚ
  compRetrieval : ℚ
  compIntent : ℚ
  compComplexityPenalty : ℚ
  compAnswerQuality : ℚ
  compLengthScore : ℚ
  compHallucinationPenalty : ℚ
  escalateToCa : Bool
  addDisclaimer : Bool
  escalationReason : Option EscalationReason
  hallucination : HalluDet.HallucinationResult

/-- ConfidenceScorer.score: weighted aggregate of the five sub-scores plus
the hallucination penalty, clamped to [0,1], with the priority escalation
policy (hallucination first, then the 0.50 threshold).  The CA-queue
enqueue and disclaimer strings are presentation side effects not carried
in the result. -/
def score (query answer : String) (category : String)
    (retrieval : Option RetrievalSignals) (intentConfidence : ℚ) : ConfidenceResult :=
  let compR := retrievalScore retrieval
  let compI := min 1 (max 0 intentConfidence)
  let compC := complexityPenalty query answer
  let compQ := answerQualityScore answer
  let compL := lengthScore answer
  let hall := HalluDet.checkAnswer answer (some category)
  let compH : ℚ := if hall.isHallucination then -(2/5) else 0
  let base := (3/10) * compR + (1/5) * compI + (1/4) * compQ + (1/10) * compL
    + (3/20) * compC
  let confidence := max 0 (min 1 (base + compH))
  let escalate := if hall.isHallucination then true else decide (confidence < 1/2)
  let reason : Option EscalationReason :=
    if hall.isHallucination then some .hallucinationDetected
    else if confidence < 1/2 then some .lowConfidence
    else none
  { query := query, answer := answer, category := category,
    confidence := round4 confidence,
    compRetrieval := round4 compR, compIntent := round4 compI,
    compComplexityPenalty := round4 compC, compAnswerQuality := round4 compQ,
    compLengthScore := round4 compL, compHallucinationPenalty := round4 compH,
    escalateToCa := escalate,
    addDisclaimer := decide (confidence < 13/20),
    escalationReason := reason,
    hallucination := hall }

end ConfScorer

namespace Sentiment

/-! ## sentiment_analysis.py

Embedding of SentimentAnalyzer.analyze.  The optional FinBERT pipeline is
an external model: its output, when available, is an opaque (label, score)
pair passed in as a parameter; the lexicon fallback path is embedded in
full.  The raw_scores echo dict is not carried. -/

open WealthRec

def POSITIVE_LEXICON : List String := [
  "excited", "great", "wonderful", "optimistic", "confident", "happy",
  "growth", "profit", "gain", "return", "opportunity", "bullish",
  "ahead", "plan", "goal", "achieve", "improve", "learn",
  "interested", "curious", "ready"]

def NEGATIVE_LEXICON : List String := [
  "worried", "anxious", "scared", "afraid", "stressed", "confused",
  "loss", "debt", "broke", "struggling", "problem", "help", "panic",
  "crash", "recession", "inflation", "layoff", "fired", "bankrupt",
  "overwhelmed", "desperate", "stuck"]

def ANXIETY_LEXICON : List String := [
  "scared", "terrified", "panic", "anxious", "anxiety", "worried",
  "nervous", "overwhelmed", "hopeless", "desperate", "can" ++ apoS ++ "t afford",
  "cannot afford", "running out", "losing money", "in trouble",
  "bad decision", "made a mistake", "emergency"]

def URGENCY_LEXICON : List String := [
  "asap", "immediately", "right now", "urgent", "deadline", "soon",
  "this week", "today", "by tomorrow", "before april", "before filing",
  "running out of time", "need to know now", "quickly", "fast"]

def LOW_CONFIDENCE_LEXICON : List String := [
  "don" ++ apoS ++ "t know", "do not know", "confused", "not sure", "unsure",
  "no idea", "beginner", "newbie", "just starting", "never invested",
  "first time", "what is", "can you explain", "help me understand",
  "i don" ++ apoS ++ "t understand", "what does", "what are"]

def HIGH_CONFIDENCE_LEXICON : List String := [
  "i know", "i understand", "i already", "i have been", "experienced",
  "advanced", "i want to optimize", "compare", "which is better",
  "tax-loss harvest", "backdoor roth", "asset location"]

/-- Module-level _score_lexicon: hit count over the lowered text. -/
def scoreLexicon (text : String) (lexicon : List String) : ℕ :=
  let lower := lowerL text.toList
  lexicon.countP (fun term => containsSub term.toList lower)

/-- Result record of SentimentAnalyzer.analyze. -/
structure SentimentResult where
  polarity : String
  polarityScore : ℚ
  anxietyLevel : String
  urgencyLevel : String
  confidenceLevel : String
  responseStyle : String
  method : String

/-- Analyzer._lexicon_polarity. -/
def lexiconPolarity (text : String) : String × ℚ :=
  let pos := scoreLexicon text POSITIVE_LEXICON
  let neg := scoreLexicon text NEGATIVE_LEXICON
  let total : ℕ := if pos + neg = 0 then 1 else pos + neg
  let score : ℚ := ((pos : ℚ) - (neg : ℚ)) / (total : ℚ)
  if score > 1/10 then ("positive", round3 score)
  else if score < -(1/10) then ("negative", round3 score)
  else ("neutral", round3 score)

/-- Analyzer._map_finbert_label. -/
def mapFinbertLabel (label : String) (score : ℚ) : String × ℚ :=
  let labelLower := lowerL label.toList
  if containsSub "positive".toList labelLower then ("positive", score)
  else if containsSub "negative".toList labelLower then ("negative", -score)
  else ("neutral", 0)

/-- Analyzer._determine_response_style: priority decision table. -/
def determineResponseStyle (polarity anxiety urgency confidence : String) : String :=
  if anxiety == "high" || confidence == "low" then "reassure_and_educate"
  else if urgency == "high" then "urgent_action"
  else if polarity == "positive" then "encouraging"
  else if confidence == "high" then "concise_expert"
  else "balanced"

/-- SentimentAnalyzer.analyze.  finbert carries the external model's
(label, score) output when the pipeline is loaded and inference succeeds,
and none on the lexicon fallback path. -/
def analyze (text : String) (finbert : Option (String × ℚ)) : SentimentResult :=
  if stripWs text.toList = [] then
    { polarity := "neutral", polarityScore := 0,
      anxietyLevel := "low", urgencyLevel := "low",
      confidenceLevel := "high", responseStyle := "balanced", method := "lexicon" }
  else
    let pm : String × ℚ × String :=
      match finbert with
      | some (label, sc) =>
        let p := mapFinbertLabel label sc
        (p.1, p.2, "finbert")
      | none =>
        let p := lexiconPolarity text
        (p.1, p.2, "lexicon")
    let anxietyHits := scoreLexicon text ANXIETY_LEXICON
    let anxietyLevel := if anxietyHits ≥ 2 then "high"
      else if anxietyHits = 1 then "medium" else "low"
    let urgencyHits := scoreLexicon text URGENCY_LEXICON
    let urgencyLevel := if urgencyHits ≥ 2 then "high"
      else if urgencyHits = 1 then "medium" else "low"
    let lowConfHits := scoreLexicon text LOW_CONFIDENCE_LEXICON
    let highConfHits := scoreLexicon text HIGH_CONFIDENCE_LEXICON
    let confidenceLevel := if lowConfHits > highConfHits then "low" else "high"
    { polarity := pm.1, polarityScore := pm.2.1,
      anxietyLevel := anxietyLevel, urgencyLevel := urgencyLevel,
      confidenceLevel := confidenceLevel,
      responseStyle := determineResponseStyle pm.1 anxietyLevel urgencyLevel confidenceLevel,
      method := pm.2.2 }

end Sentiment

namespace RLRec

/-! ## rl_recommender.py

Embedding of the LinUCB bandit over ℝ.  N_ACTIONS = 5 and CONTEXT_DIM = 11
become Fin 5 and Fin 11; numpy float64 arithmetic is modelled by exact
real arithmetic, np.linalg.solve/inv by Matrix inversion (these raise in
numpy exactly when A is singular — nonsingularity is proved below), and
math.sqrt by Real.sqrt.  ALPHA defaults to 0.5 (env override unset).
Weight persistence (_save/_load) is an I/O side effect not modelled. -/

open Matrix

/-- ACTIONS list, in source order (index = arm index). -/
def ACTIONS : Fin 5 → String :=
  !["retrieval_only", "intent_boosted", "sentiment_adapted", "entity_focused",
    "full_pipeline"]

/-- Context-vector builder (build_context_vector): intent one-hot, four
sentiment signals, session statistics and the bias term 1.0.  The dict
.get defaults of the source collapse unknown labels with the listed
default cases exactly as written below. -/
noncomputable def buildContextVector (intent anxietyLevel urgencyLevel confidenceLevel
    polarity : String) (exchangeCount : ℕ) (avgFeedback : ℝ) : Fin 11 → ℝ :=
  let intentIdx : ℕ :=
    if intent == "investment" then 1 else if intent == "tax" then 2
    else if intent == "savings" then 3 else 0
  let anxietyVal : ℝ := if anxietyLevel == "high" then 1
    else if anxietyLevel == "medium" then 1/2 else 0
  let urgencyVal : ℝ := if urgencyLevel == "high" then 1
    else if urgencyLevel == "medium" then 1/2 else 0
  let confVal : ℝ := if confidenceLevel == "high" then 1 else 0
  let polarityVal : ℝ := if polarity == "positive" then 1
    else if polarity == "negative" then 0 else 1/2
  let sessionLen : ℝ := min ((exchangeCount : ℝ) / 10) 1
  let avgFbNorm : ℝ := (avgFeedback + 1) / 2
  ![if intentIdx = 0 then 1 else 0, if intentIdx = 1 then 1 else 0,
    if intentIdx = 2 then 1 else 0, if intentIdx = 3 then 1 else 0,
    anxietyVal, urgencyVal, confVal, polarityVal, sessionLen, avgFbNorm, 1]

/-- Bandit state: per-arm ActionStats (A, b) plus the exploration
parameter and the selection counters. -/
structure BanditState where
  alpha : ℝ
  A : Fin 5 → Matrix (Fin 11) (Fin 11) ℝ
  b : Fin 5 → (Fin 11 → ℝ)
  totalSelections : Fin 5 → ℕ

/-- Fresh LinUCBBandit(): every arm starts at A = identity, b = 0. -/
noncomputable def initBandit : BanditState :=
  { alpha := 1/2, A := fun _ => 1, b := fun _ => 0, totalSelections := fun _ => 0 }

/-- ActionStats.theta: A⁻¹ b (np.linalg.solve(A, b)). -/
noncomputable def theta (st : BanditState) (a : Fin 5) : Fin 11 → ℝ :=
  (st.A a)⁻¹ *ᵥ st.b a

/-- Mean estimate theta_aᵀ x of arm a on context x. -/
noncomputable def meanEst (st : BanditState) (a : Fin 5) (x : Fin 11 → ℝ) : ℝ :=
  theta st a ⬝ᵥ x

/-- Uncertainty quadratic form xᵀ A_a⁻¹ x. -/
noncomputable def quadForm (st : BanditState) (a : Fin 5) (x : Fin 11 → ℝ) : ℝ :=
  x ⬝ᵥ ((st.A a)⁻¹ *ᵥ x)

/-- Raw UCB value mean + alpha * sqrt(xᵀ A⁻¹ x) of select_action, before
the round(·, 4) applied when it is stored into the ucb_scores dict. -/
noncomputable def ucbRaw (st : BanditState) (x : Fin 11 → ℝ) (a : Fin 5) : ℝ :=
  meanEst st a x + st.alpha * Real.sqrt (quadForm st a x)

/-- Real rounding to 4 decimal places, modelling Python round(x, 4). -/
noncomputable def round4R (y : ℝ) : ℝ := ((round (y * 10000) : ℤ) : ℝ) / 10000

/-- Entry of the ucb_scores dict: the rounded UCB value. -/
noncomputable def ucbScore (st : BanditState) (x : Fin 11 → ℝ) (a : Fin 5) : ℝ :=
  round4R (ucbRaw st x a)

/-- Python max(range(5), key=f): first index attaining the maximum (the
running best is replaced only on a strictly greater key). -/
noncomputable def argmaxFirst (f : Fin 5 → ℝ) : Fin 5 :=
  let b1 : Fin 5 := if f 1 > f 0 then 1 else 0
  let b2 : Fin 5 := if f 2 > f b1 then 2 else b1
  let b3 : Fin 5 := if f 3 > f b2 then 3 else b2
  if f 4 > f b3 then 4 else b3

/-- LinUCBBandit.select_action: computes the rounded UCB score of every
arm, picks the argmax (ties to the lowest index via max-with-key), and
increments that arm's selection counter. -/
noncomputable def selectAction (st : BanditState) (x : Fin 11 → ℝ) :
    Fin 5 × (Fin 5 → ℝ) × BanditState :=
  let scores := ucbScore st x
  let bestIdx := argmaxFirst scores
  (bestIdx, scores,
    { st with totalSelections :=
        Function.update st.totalSelections bestIdx (st.totalSelections bestIdx + 1) })

/-- LinUCBBandit.update: A_a += x xᵀ, b_a += reward · x (the _save call is
an I/O side effect). -/
noncomputable def updateBandit (st : BanditState) (a : Fin 5) (x : Fin 11 → ℝ)
    (reward : ℝ) : BanditState :=
  { st with
    A := Function.update st.A a (st.A a + vecMulVec x x),
    b := Function.update st.b a (st.b a + reward • x) }

/-- Replay of a finite sequence of update calls. -/
noncomputable def applyUpdates (st : BanditState)
    (l : List (Fin 5 × (Fin 11 → ℝ) × ℝ)) : BanditState :=
  l.foldl (fun s u => updateBandit s u.1 u.2.1 u.2.2) st

/-- SessionRLState: per-session feedback attribution bookkeeping. -/
structure SessionRLState where
  sessionId : String
  exchangeCount : ℕ := 0
  feedbackSum : ℝ := 0
  feedbackCount : ℕ := 0
  lastActionIdx : Option (Fin 5) := none
  lastContext : Option (Fin 11 → ℝ) := none

/-- Module-level record_feedback, as a pure transition on the bandit and
the session state: with no recorded prior selection it is a no-op, else
reward +1.0 for rating "up" and -1.0 for any other rating string, the
session statistics gain one sample, and the attributed arm is updated. -/
noncomputable def recordFeedback (bandit : BanditState) (st : SessionRLState)
    (rating : String) : BanditState × SessionRLState :=
  match st.lastActionIdx, st.lastContext with
  | some actionIdx, some context =>
    let reward : ℝ := if rating == "up" then 1 else -1
    (updateBandit bandit actionIdx context reward,
      { st with feedbackSum := st.feedbackSum + reward,
                feedbackCount := st.feedbackCount + 1 })
  | _, _ => (bandit, st)

/-- Iterated thumbs-up updates of one arm on one fixed context (the state
reached after n consecutive record_feedback("up") events attributed to
arm a with stored context x). -/
noncomputable def upIter (st : BanditState) (a : Fin 5) (x : Fin 11 → ℝ) : ℕ → BanditState
  | 0 => st
  | n + 1 => updateBandit (upIter st a x n) a x 1

end RLRec

namespace RLHF

/-! ## rlhf_pipeline.py

Embedding of the weekly batch pipeline as pure state transitions: the
JSONL feedback store becomes a list of records, the arm-weights and
retrieval-preference JSON files become association lists threaded through
run.  GAMMA = 0.9; the float exponent in the discount becomes Real.rpow.
MD5 content-hash keys of the preference store are modelled by the lowered
query text itself (the hash is injective by intent); wall-clock report
fields and file writes are not modelled. -/

inductive SignalType where
  | thumbsUp | thumbsDown | caApproved | caRejected | caCorrected
deriving DecidableEq

/-- REWARD_MAP. -/
def rewardMap : SignalType → ℚ
  | .thumbsUp => 1
  | .thumbsDown => -(1/2)
  | .caApproved => 3/2
  | .caRejected => -1
  | .caCorrected => 3/2

/-- FeedbackRecord (user/reviewer id and correction text omitted). -/
structure FeedbackRecord where
  id : String
  ts : ℚ
  sessionId : String
  query : String
  answer : String
  action : String
  intent : String
  signal : SignalType
  reward : ℚ

/-- FeedbackCollector.load_since: records with ts >= since_ts, in log
order. -/
def loadSince (store : List FeedbackRecord) (sinceTs : ℚ) : List FeedbackRecord :=
  store.filter (fun r => sinceTs ≤ r.ts)

/-- RewardModel.compute: base reward discounted by GAMMA^(weeks - 1) with
weeks = max(1, age_seconds / week). -/
noncomputable def rewardCompute (rec : FeedbackRecord) (now : ℚ) : ℝ :=
  let ageS : ℚ := max 0 (now - rec.ts)
  let ageW : ℚ := max 1 (ageS / (7 * 24 * 3600))
  (rec.reward : ℝ) * (9/10 : ℝ) ^ (((ageW : ℝ)) - 1)

/-- ArmStats of the simplified batch updater (the persisted A and b
matrices are initialised but never read or written by update). -/
structure ArmStats where
  arm : String
  nSamples : ℕ := 0
  totalReward : ℝ := 0
  avgReward : ℝ := 0
  A : List (List ℚ) :=
    (List.range 11).map (fun i => (List.range 11).map (fun j => if i = j then 1 else 0))
  b : List ℚ := List.replicate 11 0

/-- LinUCBUpdater.ARMS. -/
def ARMS : List String :=
  ["retrieval_only", "intent_boosted", "sentiment_adapted", "entity_focused",
   "full_pipeline"]

/-- Fresh LinUCBUpdater arm table (no weights file present). -/
def initArms : List (String × ArmStats) := ARMS.map (fun n => (n, { arm := n }))

/-- Per-arm aggregation of the updates defaultdict: number of records for
this arm and their discounted reward sum.  Records whose action is not an
arm name match no arm and are skipped with no side effect. -/
noncomputable def armAgg (name : String) (records : List FeedbackRecord) (now : ℚ) :
    ℕ × ℝ :=
  records.foldl
    (fun acc r => if r.action == name then (acc.1 + 1, acc.2 + rewardCompute r now) else acc)
    (0, 0)

/-- LinUCBUpdater.update: arms with at least one matching record get their
running totals extended and the average recomputed; all other arms are
untouched. -/
noncomputable def updaterUpdate (records : List FeedbackRecord)
    (arms : List (String × ArmStats)) (now : ℚ) : List (String × ArmStats) :=
  arms.map (fun p =>
    let agg := armAgg p.1 records now
    if agg.1 = 0 then p
    else
      let nSamples := p.2.nSamples + agg.1
      let totalReward := p.2.totalReward + agg.2
      (p.1,
        { p.2 with
          nSamples := nSamples
          totalReward := totalReward
          avgReward := totalReward / max 1 (nSamples : ℝ) }))

/-- RetrievalPreferenceEntry (last_updated timestamp omitted). -/
structure PrefEntry where
  queryHash : String
  positive : ℕ := 0
  negative : ℕ := 0
deriving DecidableEq

def incPref (e : PrefEntry) (isPositive : Bool) : PrefEntry :=
  if isPositive then { e with positive := e.positive + 1 }
  else { e with negative := e.negative + 1 }

/-- Preference-store key of a record: MD5 of the lowered query text,
modelled by the lowered query text itself. -/
def prefKey (rec : FeedbackRecord) : String :=
  String.mk (WealthRec.lowerL rec.query.toList)

/-- One setdefault-and-increment step of RetrievalFeedback.update. -/
def bumpPref (prefs : List (String × PrefEntry)) (key : String) (isPositive : Bool) :
    List (String × PrefEntry) :=
  if prefs.any (fun p => p.1 == key) then
    prefs.map (fun p => if p.1 == key then (p.1, incPref p.2 isPositive) else p)
  else prefs ++ [(key, incPref { queryHash := key } isPositive)]

/-- RetrievalFeedback.update: positive count bumped when the record's base
reward is positive, else negative count. -/
def prefsUpdate (records : List FeedbackRecord)
    (prefs : List (String × PrefEntry)) : List (String × PrefEntry) :=
  records.foldl (fun ps r => bumpPref ps (prefKey r) (decide (0 < r.reward))) prefs

/-- RetrievalFeedback.preference_score. -/
def preferenceScore (prefs : List (String × PrefEntry)) (query : String) : ℚ :=
  let key := String.mk (WealthRec.lowerL query.toList)
  match prefs.find? (fun p => p.1 == key) with
  | none => 1/2
  | some p =>
    let total := p.2.positive + p.2.negative
    if total = 0 then 1/2 else (p.2.positive : ℚ) / (total : ℚ)

/-- Report dict of RLHFPipeline.run, restricted to the fields that
identify the branch taken: the empty-feedback branch returns keys
status/records only, the success branch keys status/records_processed
(among others); absent keys are none.  Wall-clock fields, the
signal/intent breakdowns and the ranking list are not modelled. -/
structure Report where
  status : String
  records : Option ℕ
  recordsProcessed : Option ℕ
deriving DecidableEq

/-- RLHFPipeline.run as a pure function of the feedback store, the cutoff,
the two persisted state tables and the current time. -/
noncomputable def run (store : List FeedbackRecord) (sinceTs : ℚ)
    (arms : List (String × ArmStats)) (prefs : List (String × PrefEntry)) (now : ℚ) :
    Report × List (String × ArmStats) × List (String × PrefEntry) :=
  let records := loadSince store sinceTs
  if records.isEmpty then
    ({ status := "no_new_feedback", records := some 0, recordsProcessed := none },
     arms, prefs)
  else
    ({ status := "success", records := none, recordsProcessed := some records.length },
     updaterUpdate records arms now, prefsUpdate records prefs)

end RLHF

namespace SessionMem

/-! ## memory.py

The repository's memory.py wraps LangChain's ConversationBufferWindowMemory
(k = window_size): get_memory creates the per-session entry on first use
and save_context / load pass through to the library object.  The library
class is an external dependency, not repository code. -/

/-- Modelled from the spec: the windowing behaviour of the external
langchain ConversationBufferWindowMemory object held by MemoryEntry —
"Exposes the last window_size (default 5) question/answer pairs as ordered
context for the generation prompt; older pairs are dropped (FIFO), never
summarized."  The buffer stores the full alternating human/ai message
list; loading exposes the final 2k messages (Python slice messages[-2k:],
empty for k = 0). -/
inductive ChatMessage where
  | human (text : String)
  | ai (text : String)
deriving DecidableEq

/-- Per-session entry created by get_memory (timestamps omitted). -/
structure MemoryEntry where
  sessionId : String
  windowSize : ℕ
  messages : List ChatMessage

def newMemory (sessionId : String) (windowSize : ℕ) : MemoryEntry :=
  { sessionId := sessionId, windowSize := windowSize, messages := [] }

/-- Modelled from the spec: save_context appends one question/answer
exchange as a human message followed by an ai message. -/
def saveContext (m : MemoryEntry) (question answer : String) : MemoryEntry :=
  { m with messages := m.messages ++ [ChatMessage.human question, ChatMessage.ai answer] }

/-- Python l[-n:] for n ≥ 1 (whole list when n ≥ length). -/
def pyLastN (n : ℕ) (l : List ChatMessage) : List ChatMessage :=
  l.drop (l.length - n)

/-- Modelled from the spec: the message window exposed to the generation
prompt — the last 2·k messages of the buffer. -/
def loadWindow (m : MemoryEntry) : List ChatMessage :=
  if 0 < m.windowSize then pyLastN (2 * m.windowSize) m.messages else []

/-- Append a list of exchanges in arrival order. -/
def appendAll (m : MemoryEntry) (es : List (String × String)) : MemoryEntry :=
  es.foldl (fun acc e => saveContext acc e.1 e.2) m

/-- Flat alternating message encoding of a list of exchanges. -/
def pairsToMessages (es : List (String × String)) : List ChatMessage :=
  es.foldr (fun e acc => ChatMessage.human e.1 :: ChatMessage.ai e.2 :: acc) []

end SessionMem

namespace ConfScorer

/-- Unrounded confidence value computed inside ConfidenceScorer.score (the
local variable used for the escalation and disclaimer decisions, before
the round(·, 4) applied to the returned field). -/
def confidenceRaw (query answer : String) (category : String)
    (retrieval : Option RetrievalSignals) (intentConfidence : ℚ) : ℚ :=
  let compR := retrievalScore retrieval
  let compI := min 1 (max 0 intentConfidence)
  let compC := complexityPenalty query answer
  let compQ := answerQualityScore answer
  let compL := lengthScore answer
  let hall := HalluDet.checkAnswer answer (some category)
  let compH : ℚ := if hall.isHallucination then -(2/5) else 0
  max 0 (min 1 ((3/10) * compR + (1/5) * compI + (1/4) * compQ + (1/10) * compL
    + (3/20) * compC + compH))

end ConfScorer

namespace Inputs

/-! ## Concrete inputs used by witnesses and counterexamples. -/

/-- Query of the served-despite-high-severity-finding scenario. -/
def sevQuery : String := "What is the STCG tax rate on equity shares for FY 2024?"

/-- Answer whose STCG rate is the registered wrong rate 15% while three
further triggered facts pass, so the failed-fact ratio 1/4 stays below the
0.3 hallucination threshold. -/
def sevAnswer : String :=
  "Under Section 111A, STCG on equity is 15% for FY 2024. LTCG under Section 112A is taxed at 12.5% with an LTCG exemption of ₹1.25 lakh. TDS under 194C is 1% for individual contractors."

/-- Strong retrieval signals for the same scenario. -/
def sevSignals : ConfScorer.RetrievalSignals :=
  { topSimilarityScore := 1, avgSimilarityScore := 1, numChunksRetrieved := 4,
    chunkDiversity := 1 }

/-- First standard basis vector of ℝ^11, used as a concrete context. -/
noncomputable def unitCtx : Fin 11 → ℝ := Pi.single 0 1

/-- Bandit state in which arm 1 holds a mean estimate of 0.00003 on
unitCtx and every other arm is fresh. -/
noncomputable def roundTieBandit : RLRec.BanditState :=
  { alpha := 1/2, A := fun _ => 1,
    b := fun j => if j = 1 then (3/100000 : ℝ) • unitCtx else 0,
    totalSelections := fun _ => 0 }

/-- Bandit state whose arm 0 already holds a mean estimate of 2.0 on
unitCtx (A the identity, b = 2 · unitCtx). -/
noncomputable def highMeanBandit : RLRec.BanditState :=
  { alpha := 1/2, A := fun _ => 1, b := fun _ => (2 : ℝ) • unitCtx,
    totalSelections := fun _ => 0 }

/-- One feedback record with timestamp 0 (older than any positive
cutoff). -/
def staleRecord : RLHF.FeedbackRecord :=
  { id := "fb1", ts := 0, sessionId := "s1", query := "What is STCG rate?",
    answer := "20% u/s 111A", action := "full_pipeline", intent := "tax",
    signal := .thumbsUp, reward := 1 }

/-- Session state holding an attribution for arm 0 with context unitCtx. -/
noncomputable def attributedSession : RLRec.SessionRLState :=
  { sessionId := "s1", exchangeCount := 1, feedbackSum := 0, feedbackCount := 0,
    lastActionIdx := some 0, lastContext := some unitCtx }

/-- Session state with no recorded prior strategy selection. -/
def freshSession : RLRec.SessionRLState := { sessionId := "s2" }

end Inputs

/-! ## Helper lemmas -/

namespace WealthRec

theorem foldr_append_any {α : Type} (p : α → Bool) (ls : List (List α)) :
    (ls.foldr (· ++ ·) []).any p = ls.any (fun l => l.any p) := by
  induction ls with
  | nil => rfl
  | cons l t ih => simp [List.any_append, ih]

end WealthRec

namespace SessionMem

theorem appendAll_messages (es : List (String × String)) (m : MemoryEntry) :
    (appendAll m es).messages = m.messages ++ pairsToMessages es := by
  induction es generalizing m with
  | nil => simp [appendAll, pairsToMessages]
  | cons e t ih =>
    simp only [appendAll, List.foldl_cons, pairsToMessages, List.foldr_cons]
    rw [show (List.foldl (fun acc e => saveContext acc e.1 e.2) (saveContext m e.1 e.2) t)
        = appendAll (saveContext m e.1 e.2) t from rfl, ih]
    simp [saveContext, pairsToMessages]

theorem appendAll_windowSize (es : List (String × String)) (m : MemoryEntry) :
    (appendAll m es).windowSize = m.windowSize := by
  induction es generalizing m with
  | nil => rfl
  | cons e t ih =>
    simp only [appendAll, List.foldl_cons]
    exact ih (saveContext m e.1 e.2)

theorem pairsToMessages_length (es : List (String × String)) :
    (pairsToMessages es).length = 2 * es.length := by
  induction es with
  | nil => rfl
  | cons e t ih => simp [pairsToMessages, List.length] at ih ⊢; omega

theorem pairsToMessages_drop (k : ℕ) (es : List (String × String)) :
    (pairsToMessages es).drop (2 * k) = pairsToMessages (es.drop k) := by
  induction k generalizing es with
  | zero => simp
  | succ n ih =>
    cases es with
    | nil => simp [pairsToMessages]
    | cons e t =>
      have h2 : 2 * (n + 1) = 2 * n + 1 + 1 := by omega
      rw [h2]
      simp only [pairsToMessages, List.foldr_cons, List.drop_succ_cons]
      exact ih t

end SessionMem

/-! ## Claim theorems -/

open WealthRec

/-- C8: for every session and window size w > 0, after N > w exchanges are
appended to that session's memory, the exposed window is exactly the flat
oldest-first encoding of the last w exchanges — the first N - w exchanges
are dropped (FIFO, never summarized) and the window holds 2w messages
(w question/answer pairs). -/
theorem c8_session_window (sid : String) (w : ℕ) (es : List (String × String))
    (hw : 0 < w) (hlen : w < es.length) :
    SessionMem.loadWindow (SessionMem.appendAll (SessionMem.newMemory sid w) es)
      = SessionMem.pairsToMessages (es.drop (es.length - w))
    ∧ (SessionMem.loadWindow (SessionMem.appendAll (SessionMem.newMemory sid w) es)).length
      = 2 * w := by
  have hmsg : (SessionMem.appendAll (SessionMem.newMemory sid w) es).messages
      = SessionMem.pairsToMessages es := by
    rw [SessionMem.appendAll_messages]
    simp [SessionMem.newMemory]
  have hwin : (SessionMem.appendAll (SessionMem.newMemory sid w) es).windowSize = w := by
    rw [SessionMem.appendAll_windowSize]
    rfl
  have hmain :
      SessionMem.loadWindow (SessionMem.appendAll (SessionMem.newMemory sid w) es)
        = SessionMem.pairsToMessages (es.drop (es.length - w)) := by
    rw [SessionMem.loadWindow, hwin, if_pos hw, SessionMem.pyLastN, hmsg,
      SessionMem.pairsToMessages_length]
    have h2 : 2 * es.length - 2 * w = 2 * (es.length - w) := by omega
    rw [h2, SessionMem.pairsToMessages_drop]
  refine ⟨hmain, ?_⟩
  rw [hmain, SessionMem.pairsToMessages_length, List.length_drop]
  omega

/-- Witness for C8 at w = 2 and three appended exchanges: exactly the last
two exchanges are exposed, oldest first. -/
theorem c8_session_window_witness :
    0 < 2 ∧ 2 < ([("q1", "a1"), ("q2", "a2"), ("q3", "a3")] : List (String × String)).length
    ∧ SessionMem.loadWindow (SessionMem.appendAll (SessionMem.newMemory "s" 2)
        [("q1", "a1"), ("q2", "a2"), ("q3", "a3")])
      = SessionMem.pairsToMessages [("q2", "a2"), ("q3", "a3")] :=
  ⟨by decide, by decide,
   (c8_session_window "s" 2 [("q1", "a1"), ("q2", "a2"), ("q3", "a3")]
      (by decide) (by decide)).1⟩

/-- Hallucination flag characterisation: is_hallucination is true exactly
when the unrounded failed-fact ratio reaches the 0.3 threshold and the
findings list is non-empty. -/
theorem checkAnswer_isHallucination_iff (text : String) (qc : Option String) :
    (HalluDet.checkAnswer text qc).isHallucination = true ↔
      ((3/10 : ℚ) ≤ (if (HalluDet.checkAnswer text qc).factsChecked = 0 then 0
        else (((HalluDet.checkAnswer text qc).factsChecked : ℚ)
            - ((HalluDet.checkAnswer text qc).factsPassed : ℚ))
          / ((HalluDet.checkAnswer text qc).factsChecked : ℚ))
      ∧ (HalluDet.checkAnswer text qc).findings ≠ []) := by
  simp only [HalluDet.checkAnswer, HalluDet.check, Bool.and_eq_true,
    decide_eq_true_eq, Bool.not_eq_true']
  rw [List.isEmpty_eq_false_iff_exists_mem]
  constructor
  · rintro ⟨hle, x, hx⟩
    exact ⟨hle, List.ne_nil_of_mem hx⟩
  · rintro ⟨hle, hne⟩
    rcases List.exists_mem_of_ne_nil _ hne with ⟨x, hx⟩
    exact ⟨hle, x, hx⟩

/-- Escalation decision of the scorer: escalate_to_ca equals the
hallucination flag OR the unrounded numeric confidence falling below the
0.50 threshold, and nothing else. -/
theorem score_escalateToCa_eq (query answer category : String)
    (retrieval : Option ConfScorer.RetrievalSignals) (intentConfidence : ℚ) :
    (ConfScorer.score query answer category retrieval intentConfidence).escalateToCa
      = ((HalluDet.checkAnswer answer (some category)).isHallucination
         || decide (ConfScorer.confidenceRaw query answer category retrieval
              intentConfidence < 1/2)) := by
  have hesc : (ConfScorer.score query answer category retrieval
      intentConfidence).escalateToCa
      = (if (HalluDet.checkAnswer answer (some category)).isHallucination then true
         else decide (ConfScorer.confidenceRaw query answer category retrieval
            intentConfidence < 1/2)) := rfl
  rw [hesc]
  cases h : (HalluDet.checkAnswer answer (some category)).isHallucination <;> simp

/-- C3 (amended): the detector's confidence is the failed-fact ratio
(facts_checked − facts_passed)/facts_checked rounded to 4 decimal places
(the source applies round(·, 4) when storing the field), it is exactly 0.0
with is_hallucination = False when no registry fact is applicable, and
is_hallucination is True exactly when the unrounded ratio reaches the
default threshold 0.3 and the findings list is non-empty. -/
theorem c3_confidence_formula (text : String) (qc : Option String) :
    (HalluDet.checkAnswer text qc).factsPassed ≤ (HalluDet.checkAnswer text qc).factsChecked
    ∧ (HalluDet.checkAnswer text qc).confidence
      = round4 (if (HalluDet.checkAnswer text qc).factsChecked = 0 then 0
          else (((HalluDet.checkAnswer text qc).factsChecked : ℚ)
              - ((HalluDet.checkAnswer text qc).factsPassed : ℚ))
            / ((HalluDet.checkAnswer text qc).factsChecked : ℚ))
    ∧ ((HalluDet.checkAnswer text qc).factsChecked = 0 →
        (HalluDet.checkAnswer text qc).confidence = 0
        ∧ (HalluDet.checkAnswer text qc).isHallucination = false)
    ∧ ((HalluDet.checkAnswer text qc).isHallucination = true ↔
        ((3/10 : ℚ) ≤ (if (HalluDet.checkAnswer text qc).factsChecked = 0 then 0
          else (((HalluDet.checkAnswer text qc).factsChecked : ℚ)
              - ((HalluDet.checkAnswer text qc).factsPassed : ℚ))
            / ((HalluDet.checkAnswer text qc).factsChecked : ℚ))
        ∧ (HalluDet.checkAnswer text qc).findings ≠ [])) := by
  refine ⟨?_, rfl, ?_, ?_⟩
  · simp only [HalluDet.checkAnswer, HalluDet.check]
    exact le_trans (List.length_filter_le _ _) (le_of_eq (List.length_map _ _))
  · intro h0
    simp only [HalluDet.checkAnswer, HalluDet.check] at h0 ⊢
    rw [if_pos h0]
    constructor
    · simp [WealthRec.round4]
    · simp [h0]
  · exact checkAnswer_isHallucination_iff text qc

/-- Witness for C3 at a concrete answer checked against three registry
facts, one of which fails: is_hallucination obtains from the ratio 1/3
reaching the threshold with a non-empty findings list, and the returned
confidence is the rounded value of 1/3. -/
theorem c3_confidence_formula_witness :
    (HalluDet.checkAnswer "stcg is 15%" none).isHallucination = true
    ∧ (HalluDet.checkAnswer "stcg is 15%" none).confidence = round4 (1/3) := by
  have hc : (HalluDet.checkAnswer "stcg is 15%" none).factsChecked = 3 := by decide
  have hp : (HalluDet.checkAnswer "stcg is 15%" none).factsPassed = 2 := by decide
  have h := c3_confidence_formula "stcg is 15%" none
  constructor
  · refine h.2.2.2.mpr ⟨?_, by decide⟩
    rw [hc, hp]
    norm_num
  · rw [h.2.1, hc, hp]
    norm_num [WealthRec.round4, round_eq]

/-- Counterexample for C3 as stated: at this concrete input three facts
are applicable and one fails, and the returned confidence field is the
4-decimal rounding 0.3333, not the exact ratio (3 − 2)/3. -/
theorem c3_confidence_formula_cex :
    (HalluDet.checkAnswer "stcg is 15%" none).factsChecked = 3
    ∧ (HalluDet.checkAnswer "stcg is 15%" none).factsPassed = 2
    ∧ (HalluDet.checkAnswer "stcg is 15%" none).confidence
      ≠ (((HalluDet.checkAnswer "stcg is 15%" none).factsChecked : ℚ)
          - ((HalluDet.checkAnswer "stcg is 15%" none).factsPassed : ℚ))
        / ((HalluDet.checkAnswer "stcg is 15%" none).factsChecked : ℚ) := by
  have hc : (HalluDet.checkAnswer "stcg is 15%" none).factsChecked = 3 := by decide
  have hp : (HalluDet.checkAnswer "stcg is 15%" none).factsPassed = 2 := by decide
  have hconf : (HalluDet.checkAnswer "stcg is 15%" none).confidence
      = round4 (if (HalluDet.checkAnswer "stcg is 15%" none).factsChecked = 0 then 0
          else (((HalluDet.checkAnswer "stcg is 15%" none).factsChecked : ℚ)
              - ((HalluDet.checkAnswer "stcg is 15%" none).factsPassed : ℚ))
            / ((HalluDet.checkAnswer "stcg is 15%" none).factsChecked : ℚ)) := rfl
  refine ⟨hc, hp, ?_⟩
  rw [hconf, hc, hp]
  norm_num [WealthRec.round4, round_eq]

/-- C1: whenever the hallucination check on (answer, category) reports
is_hallucination = True, ConfidenceScorer.score escalates to CA review,
whatever the retrieval signals, the intent confidence and the computed
numeric confidence are. -/
theorem c1_hallucination_always_escalates (query answer category : String)
    (retrieval : Option ConfScorer.RetrievalSignals) (intentConfidence : ℚ)
    (h : (HalluDet.checkAnswer answer (some category)).isHallucination = true) :
    (ConfScorer.score query answer category retrieval intentConfidence).escalateToCa
      = true := by
  simp only [ConfScorer.score]
  rw [h]
  simp

/-- Witness for C1: an answer carrying the superseded 15% STCG rate fires
the detector, and score escalates it. -/
theorem c1_hallucination_always_escalates_witness :
    (HalluDet.checkAnswer "STCG on equity is 15%." (some "capital_gains")).isHallucination
      = true
    ∧ (ConfScorer.score "What is STCG tax rate?" "STCG on equity is 15%." "capital_gains"
        none (1/2)).escalateToCa = true := by
  have hc : (HalluDet.checkAnswer "STCG on equity is 15%."
      (some "capital_gains")).factsChecked = 1 := by decide
  have hp : (HalluDet.checkAnswer "STCG on equity is 15%."
      (some "capital_gains")).factsPassed = 0 := by decide
  have hh : (HalluDet.checkAnswer "STCG on equity is 15%."
      (some "capital_gains")).isHallucination = true := by
    refine (checkAnswer_isHallucination_iff "STCG on equity is 15%."
      (some "capital_gains")).mpr ⟨?_, by decide⟩
    rw [hc, hp]
    norm_num
  exact ⟨hh, c1_hallucination_always_escalates "What is STCG tax rate?"
    "STCG on equity is 15%." "capital_gains" none (1/2) hh⟩

/-- C2 (amended): a finding of severity high or critical makes the
detector set needs_ca_review = True (and conversely), but the scorer's
escalation decision consults only is_hallucination and the unrounded
numeric confidence against the 0.50 threshold — escalate_to_ca equals
is_hallucination OR (confidence < 0.50), so a high-severity finding with
is_hallucination = False and confidence at least 0.50 is served without
CA escalation. -/
theorem c2_severity_sets_review_flag_only (query answer category : String)
    (retrieval : Option ConfScorer.RetrievalSignals) (intentConfidence : ℚ) :
    ((HalluDet.checkAnswer answer (some category)).needsCaReview = true ↔
      ∃ g ∈ (HalluDet.checkAnswer answer (some category)).findings,
        g.severity = "high" ∨ g.severity = "critical")
    ∧ (ConfScorer.score query answer category retrieval intentConfidence).escalateToCa
      = ((HalluDet.checkAnswer answer (some category)).isHallucination
         || decide (ConfScorer.confidenceRaw query answer category retrieval
              intentConfidence < 1/2)) := by
  constructor
  · simp only [HalluDet.checkAnswer, HalluDet.check]
    rw [show (List.map (fun f => HalluDet.checkFact (lowerL answer.toList) f)
        (List.filter (HalluDet.factIncluded (lowerL answer.toList) (some category))
          HalluDet.FACT_REGISTRY)).any
          (fun l => l.any fun g => g.severity == "high" || g.severity == "critical")
        = ((List.map (fun f => HalluDet.checkFact (lowerL answer.toList) f)
            (List.filter (HalluDet.factIncluded (lowerL answer.toList) (some category))
              HalluDet.FACT_REGISTRY)).foldr (· ++ ·) []).any
            (fun g => g.severity == "high" || g.severity == "critical")
      from (WealthRec.foldr_append_any _ _).symm]
    simp [List.any_eq_true]
  · exact score_escalateToCa_eq query answer category retrieval intentConfidence

set_option maxRecDepth 8000 in
set_option maxHeartbeats 1000000 in
/-- Counterexample for C2 as stated: this answer produces one
high-severity wrong-rate finding among four checked facts, so the failed
ratio 1/4 stays below 0.3 and is_hallucination is False; the numeric
confidence is 0.95, and the scorer serves the answer without CA
escalation even though the detector demanded review. -/
theorem c2_severity_escalation_cex :
    (∃ g ∈ (HalluDet.checkAnswer Inputs.sevAnswer (some "capital_gains")).findings,
        g.severity = "high" ∨ g.severity = "critical")
    ∧ (HalluDet.checkAnswer Inputs.sevAnswer (some "capital_gains")).needsCaReview = true
    ∧ (HalluDet.checkAnswer Inputs.sevAnswer (some "capital_gains")).isHallucination = false
    ∧ (ConfScorer.score Inputs.sevQuery Inputs.sevAnswer "capital_gains"
        (some Inputs.sevSignals) (19/20)).escalateToCa = false := by
  have hfind : ∃ g ∈ (HalluDet.checkAnswer Inputs.sevAnswer
      (some "capital_gains")).findings, g.severity = "high" ∨ g.severity = "critical" := by
    decide
  have hrev : (HalluDet.checkAnswer Inputs.sevAnswer
      (some "capital_gains")).needsCaReview = true := by decide
  have hc : (HalluDet.checkAnswer Inputs.sevAnswer
      (some "capital_gains")).factsChecked = 4 := by decide
  have hp : (HalluDet.checkAnswer Inputs.sevAnswer
      (some "capital_gains")).factsPassed = 3 := by decide
  have hnh : (HalluDet.checkAnswer Inputs.sevAnswer
      (some "capital_gains")).isHallucination = false := by
    rw [Bool.eq_false_iff]
    intro h
    have hm := ((checkAnswer_isHallucination_iff Inputs.sevAnswer
      (some "capital_gains")).mp h).1
    rw [hc, hp] at hm
    norm_num at hm
  refine ⟨hfind, hrev, hnh, ?_⟩
  have hconf : ConfScorer.confidenceRaw Inputs.sevQuery Inputs.sevAnswer "capital_gains"
      (some Inputs.sevSignals) (19/20) = 19/20 := by
    have hhi : ConfScorer.complexityHigh.any (fun kw => containsSub kw.toList
        (lowerL (Inputs.sevQuery ++ " " ++ Inputs.sevAnswer).toList)) = false := by decide
    have hmed : ConfScorer.complexityMedium.any (fun kw => containsSub kw.toList
        (lowerL (Inputs.sevQuery ++ " " ++ Inputs.sevAnswer).toList)) = false := by decide
    have hpos : ConfScorer.positiveMarkers.countP
        (fun m => m (lowerL Inputs.sevAnswer.toList)) = 4 := by decide
    have hneg : ConfScorer.negativeMarkerPhrases.countP (fun alts =>
        alts.any (fun p => containsSub p.toList (lowerL Inputs.sevAnswer.toList))) = 0 := by
      decide
    have htok : pySplitCount Inputs.sevAnswer = 34 := by decide
    simp only [ConfScorer.confidenceRaw, ConfScorer.retrievalScore,
      ConfScorer.complexityPenalty, ConfScorer.answerQualityScore,
      ConfScorer.lengthScore, hhi, hmed, hpos, hneg, htok, hnh]
    norm_num [Inputs.sevSignals, min_def, max_def]
  rw [score_escalateToCa_eq Inputs.sevQuery Inputs.sevAnswer "capital_gains"
    (some Inputs.sevSignals) (19/20), hnh, hconf]
  simp only [Bool.false_or]
  apply decide_eq_false
  norm_num

/-- Decision-table lemma: whenever the confidence level is one of the two
values the analyzer can produce, the balanced branch of
_determine_response_style is unreachable, low confidence or high anxiety
forces reassure_and_educate, and high confidence with no higher-priority
rule firing yields concise_expert. -/
theorem determineResponseStyle_spec (P A U C : String) (hC : C = "high" ∨ C = "low") :
    Sentiment.determineResponseStyle P A U C ≠ "balanced"
    ∧ ((C = "low" ∨ A = "high") →
        Sentiment.determineResponseStyle P A U C = "reassure_and_educate")
    ∧ ((C = "high" ∧ A ≠ "high" ∧ U ≠ "high" ∧ P ≠ "positive") →
        Sentiment.determineResponseStyle P A U C = "concise_expert") := by
  unfold Sentiment.determineResponseStyle
  rcases hC with hC | hC <;> subst hC <;>
    by_cases hA : A = "high" <;> by_cases hU : U = "high" <;>
      by_cases hP : P = "positive" <;> simp_all

/-- C9: on input with at least one non-whitespace character, analyze
never returns the balanced style: the confidence level is exactly high or
low; low confidence or high anxiety yields reassure_and_educate; high
confidence with no higher-priority rule (anxiety, urgency, positive
polarity) yields concise_expert — the final else branch is unreachable. -/
theorem c9_response_style_never_balanced (text : String) (finbert : Option (String × ℚ))
    (h : stripWs text.toList ≠ []) :
    ((Sentiment.analyze text finbert).confidenceLevel = "high"
      ∨ (Sentiment.analyze text finbert).confidenceLevel = "low")
    ∧ (Sentiment.analyze text finbert).responseStyle ≠ "balanced"
    ∧ (((Sentiment.analyze text finbert).confidenceLevel = "low"
        ∨ (Sentiment.analyze text finbert).anxietyLevel = "high") →
        (Sentiment.analyze text finbert).responseStyle = "reassure_and_educate")
    ∧ (((Sentiment.analyze text finbert).confidenceLevel = "high"
        ∧ (Sentiment.analyze text finbert).anxietyLevel ≠ "high"
        ∧ (Sentiment.analyze text finbert).urgencyLevel ≠ "high"
        ∧ (Sentiment.analyze text finbert).polarity ≠ "positive") →
        (Sentiment.analyze text finbert).responseStyle = "concise_expert") := by
  simp only [Sentiment.analyze, if_neg h]
  have hC : (if Sentiment.scoreLexicon text Sentiment.LOW_CONFIDENCE_LEXICON
        > Sentiment.scoreLexicon text Sentiment.HIGH_CONFIDENCE_LEXICON
      then "low" else "high") = "high"
      ∨ (if Sentiment.scoreLexicon text Sentiment.LOW_CONFIDENCE_LEXICON
          > Sentiment.scoreLexicon text Sentiment.HIGH_CONFIDENCE_LEXICON
        then "low" else "high") = "low" := by
    by_cases hcmp : Sentiment.scoreLexicon text Sentiment.LOW_CONFIDENCE_LEXICON
        > Sentiment.scoreLexicon text Sentiment.HIGH_CONFIDENCE_LEXICON
    · exact Or.inr (if_pos hcmp)
    · exact Or.inl (if_neg hcmp)
  have hspec := determineResponseStyle_spec
    (match finbert with
      | some (label, sc) => ((Sentiment.mapFinbertLabel label sc).1,
          (Sentiment.mapFinbertLabel label sc).2, "finbert")
      | none => ((Sentiment.lexiconPolarity text).1,
          (Sentiment.lexiconPolarity text).2, "lexicon")).1
    (if Sentiment.scoreLexicon text Sentiment.ANXIETY_LEXICON ≥ 2 then "high"
      else if Sentiment.scoreLexicon text Sentiment.ANXIETY_LEXICON = 1 then "medium"
      else "low")
    (if Sentiment.scoreLexicon text Sentiment.URGENCY_LEXICON ≥ 2 then "high"
      else if Sentiment.scoreLexicon text Sentiment.URGENCY_LEXICON = 1 then "medium"
      else "low")
    (if Sentiment.scoreLexicon text Sentiment.LOW_CONFIDENCE_LEXICON
        > Sentiment.scoreLexicon text Sentiment.HIGH_CONFIDENCE_LEXICON
      then "low" else "high")
    hC
  exact ⟨hC, hspec.1, hspec.2.1, hspec.2.2⟩

/-- Witness for C9 on the non-empty input "hello": the style produced is
not balanced. -/
theorem c9_response_style_never_balanced_witness :
    stripWs ("hello" : String).toList ≠ []
    ∧ (Sentiment.analyze "hello" none).responseStyle ≠ "balanced" :=
  ⟨by decide, (c9_response_style_never_balanced "hello" none (by decide)).2.1⟩

open Matrix in
/-- Case split over a five-element index type. -/
theorem forall_fin5 {P : Fin 5 → Prop} (h0 : P 0) (h1 : P 1) (h2 : P 2) (h3 : P 3)
    (h4 : P 4) : ∀ j, P j := by
  intro j
  fin_cases j <;> assumption

/-- Specification of max(range(5), key=f): the returned index attains the
maximum, and any index attaining the same key value is not smaller. -/
theorem argmaxFirst_spec (f : Fin 5 → ℝ) :
    (∀ j, f j ≤ f (RLRec.argmaxFirst f))
    ∧ (∀ j, f j = f (RLRec.argmaxFirst f) → RLRec.argmaxFirst f ≤ j) := by
  unfold RLRec.argmaxFirst
  dsimp only
  split_ifs
  all_goals refine ⟨forall_fin5 ?_ ?_ ?_ ?_ ?_, forall_fin5 ?_ ?_ ?_ ?_ ?_⟩
  all_goals
    first
      | exact le_rfl
      | linarith
      | (intro _; decide)
      | (intro hEq; linarith)

open Matrix in
/-- Action of a rank-one outer product on a vector. -/
theorem vecMulVec_mulVec_eq (x y v : Fin 11 → ℝ) :
    Matrix.vecMulVec x y *ᵥ v = (y ⬝ᵥ v) • x := by
  funext i
  simp only [Matrix.mulVec, Matrix.dotProduct, Matrix.vecMulVec_apply, Pi.smul_apply,
    smul_eq_mul]
  rw [Finset.sum_congr rfl (fun j _ => mul_assoc (x i) (y j) (v j)), ← Finset.mul_sum]
  ring

open Matrix in
/-- The outer product x xᵀ is positive semidefinite over ℝ. -/
theorem posSemidef_vecMulVec_self (x : Fin 11 → ℝ) :
    (Matrix.vecMulVec x x).PosSemidef := by
  constructor
  · ext i j
    simp [Matrix.conjTranspose_apply, Matrix.vecMulVec_apply, mul_comm]
  · intro v
    rw [star_trivial, vecMulVec_mulVec_eq, Matrix.dotProduct_smul, smul_eq_mul,
      Matrix.dotProduct_comm v x]
    exact mul_self_nonneg _

open Matrix in
/-- An update A += x xᵀ keeps A positive definite. -/
theorem posDef_add_vecMulVec (A : Matrix (Fin 11) (Fin 11) ℝ) (x : Fin 11 → ℝ)
    (hA : A.PosDef) : (A + Matrix.vecMulVec x x).PosDef :=
  hA.add_posSemidef (posSemidef_vecMulVec_self x)

open Matrix in
/-- Determinant of a positive definite real matrix is nonzero (derived
from the quadratic form, so that singular matrices are excluded). -/
theorem posDef_det_ne_zero (M : Matrix (Fin 11) (Fin 11) ℝ) (h : M.PosDef) :
    M.det ≠ 0 := by
  intro hdet
  obtain ⟨v, hv, hMv⟩ := (Matrix.exists_mulVec_eq_zero_iff).mpr hdet
  have hpos := h.2 v hv
  rw [hMv] at hpos
  simp [Matrix.dotProduct_zero] at hpos

/-- Replaying any batch of updates preserves positive definiteness of
every arm's A matrix. -/
theorem applyUpdates_posDef (l : List (Fin 5 × (Fin 11 → ℝ) × ℝ)) (st : RLRec.BanditState)
    (h : ∀ a, (st.A a).PosDef) : ∀ a, ((RLRec.applyUpdates st l).A a).PosDef := by
  induction l generalizing st with
  | nil => exact h
  | cons u t ih =>
    refine ih (RLRec.updateBandit st u.1 u.2.1 u.2.2) (fun a => ?_)
    unfold RLRec.updateBandit
    by_cases hau : a = u.1
    · subst hau
      simpa using posDef_add_vecMulVec _ _ (h _)
    · simpa [Function.update_noteq hau] using h a

set_option maxRecDepth 4000 in
open Matrix in
/-- C5: starting from the identity initialisation, after any finite
sequence of update calls every arm's A matrix is positive definite,
symmetric, and has invertible (nonzero) determinant — the matrix
inversions inside select_action are therefore always defined (numpy's
inv/solve raise only on singular matrices). -/
theorem c5_bandit_A_posdef (l : List (Fin 5 × (Fin 11 → ℝ) × ℝ)) (a : Fin 5) :
    ((RLRec.applyUpdates RLRec.initBandit l).A a).PosDef
    ∧ ((RLRec.applyUpdates RLRec.initBandit l).A a)ᵀ
      = (RLRec.applyUpdates RLRec.initBandit l).A a
    ∧ IsUnit ((RLRec.applyUpdates RLRec.initBandit l).A a).det := by
  have hPD : ((RLRec.applyUpdates RLRec.initBandit l).A a).PosDef :=
    applyUpdates_posDef l RLRec.initBandit (fun _ => Matrix.PosDef.one) a
  have hdet : ((RLRec.applyUpdates RLRec.initBandit l).A a).det ≠ 0 :=
    posDef_det_ne_zero _ hPD
  refine ⟨hPD, ?_, isUnit_iff_ne_zero.mpr hdet⟩
  have hH := hPD.isHermitian
  ext i j
  calc ((RLRec.applyUpdates RLRec.initBandit l).A a)ᵀ i j
      = (RLRec.applyUpdates RLRec.initBandit l).A a j i := rfl
    _ = star ((RLRec.applyUpdates RLRec.initBandit l).A a j i) := (star_trivial _).symm
    _ = ((RLRec.applyUpdates RLRec.initBandit l).A a)ᴴ i j := rfl
    _ = (RLRec.applyUpdates RLRec.initBandit l).A a i j := by rw [hH]

open Matrix in
/-- Rank-one update of the ridge-regression mean: for positive definite A
and nonzero x, the quadratic form s = xᵀA⁻¹x is positive, and after the
update (A, b) ↦ (A + xxᵀ, b + x) the mean estimate on x moves from
m = (A⁻¹b)ᵀx to (m + s)/(1 + s) (Sherman–Morrison). -/
theorem mean_after_rank_one (A : Matrix (Fin 11) (Fin 11) ℝ) (b x : Fin 11 → ℝ)
    (hA : A.PosDef) (hx : x ≠ 0) :
    0 < x ⬝ᵥ (A⁻¹ *ᵥ x)
    ∧ ((A + vecMulVec x x)⁻¹ *ᵥ (b + x)) ⬝ᵥ x
      = ((A⁻¹ *ᵥ b) ⬝ᵥ x + x ⬝ᵥ (A⁻¹ *ᵥ x)) / (1 + x ⬝ᵥ (A⁻¹ *ᵥ x)) := by
  have hdet : IsUnit A.det := isUnit_iff_ne_zero.mpr (posDef_det_ne_zero A hA)
  have hA' : (A + vecMulVec x x).PosDef := posDef_add_vecMulVec A x hA
  have hdet' : IsUnit (A + vecMulVec x x).det :=
    isUnit_iff_ne_zero.mpr (posDef_det_ne_zero _ hA')
  have hAy : A *ᵥ (A⁻¹ *ᵥ x) = x := by
    rw [Matrix.mulVec_mulVec, Matrix.mul_nonsing_inv _ hdet, Matrix.one_mulVec]
  have hy0 : A⁻¹ *ᵥ x ≠ 0 := by
    intro h0
    exact hx (by rw [← hAy, h0, Matrix.mulVec_zero])
  have hs : 0 < x ⬝ᵥ (A⁻¹ *ᵥ x) := by
    have hq := hA.2 (A⁻¹ *ᵥ x) hy0
    rw [star_trivial] at hq
    calc (0 : ℝ) < (A⁻¹ *ᵥ x) ⬝ᵥ (A *ᵥ (A⁻¹ *ᵥ x)) := hq
      _ = (A *ᵥ (A⁻¹ *ᵥ x)) ⬝ᵥ (A⁻¹ *ᵥ x) := Matrix.dotProduct_comm _ _
      _ = x ⬝ᵥ (A⁻¹ *ᵥ x) := by rw [hAy]
  refine ⟨hs, ?_⟩
  have hs1 : (1 : ℝ) + x ⬝ᵥ (A⁻¹ *ᵥ x) ≠ 0 := by
    have h01 : (0 : ℝ) < 1 + x ⬝ᵥ (A⁻¹ *ᵥ x) := by linarith
    exact ne_of_gt h01
  set s := x ⬝ᵥ (A⁻¹ *ᵥ x) with hsdef
  set m := (A⁻¹ *ᵥ b) ⬝ᵥ x with hmdef
  set c := (1 - m) / (1 + s) with hcdef
  have hAb : A *ᵥ (A⁻¹ *ᵥ b) = b := by
    rw [Matrix.mulVec_mulVec, Matrix.mul_nonsing_inv _ hdet, Matrix.one_mulVec]
  have hxb : x ⬝ᵥ (A⁻¹ *ᵥ b) = m := by
    rw [hmdef, Matrix.dotProduct_comm]
  have hout : vecMulVec x x *ᵥ (A⁻¹ *ᵥ b + c • (A⁻¹ *ᵥ x)) = (m + c * s) • x := by
    rw [vecMulVec_mulVec_eq, Matrix.dotProduct_add, Matrix.dotProduct_smul, hxb,
      smul_eq_mul, hsdef]
  have hcoef : c + (m + c * s) = 1 := by
    rw [hcdef]
    field_simp
    ring
  have hkey : (A + vecMulVec x x) *ᵥ (A⁻¹ *ᵥ b + c • (A⁻¹ *ᵥ x)) = b + x := by
    calc (A + vecMulVec x x) *ᵥ (A⁻¹ *ᵥ b + c • (A⁻¹ *ᵥ x))
        = A *ᵥ (A⁻¹ *ᵥ b + c • (A⁻¹ *ᵥ x))
          + vecMulVec x x *ᵥ (A⁻¹ *ᵥ b + c • (A⁻¹ *ᵥ x)) := Matrix.add_mulVec _ _ _
      _ = (b + c • x) + (m + c * s) • x := by
          rw [Matrix.mulVec_add, Matrix.mulVec_smul, hAb, hAy, hout]
      _ = b + (c + (m + c * s)) • x := by rw [add_assoc, ← add_smul]
      _ = b + x := by rw [hcoef, one_smul]
  have hcand : (A + vecMulVec x x)⁻¹ *ᵥ (b + x) = A⁻¹ *ᵥ b + c • (A⁻¹ *ᵥ x) := by
    rw [← hkey, Matrix.mulVec_mulVec, Matrix.nonsing_inv_mul _ hdet', Matrix.one_mulVec]
  rw [hcand, Matrix.add_dotProduct, Matrix.smul_dotProduct, smul_eq_mul,
    Matrix.dotProduct_comm (A⁻¹ *ᵥ x) x, ← hsdef, ← hmdef, hcdef]
  field_simp
  ring

open Matrix in
/-- One +1.0-reward update on arm a: positive definiteness is preserved
and, when the current mean estimate is below 1, the mean estimate on the
same context strictly increases while staying below 1. -/
theorem thumbsUp_step (st : RLRec.BanditState) (a : Fin 5) (x : Fin 11 → ℝ)
    (hA : (st.A a).PosDef) (hx : x ≠ 0) (hm : RLRec.meanEst st a x < 1) :
    ((RLRec.updateBandit st a x 1).A a).PosDef
    ∧ RLRec.meanEst st a x < RLRec.meanEst (RLRec.updateBandit st a x 1) a x
    ∧ RLRec.meanEst (RLRec.updateBandit st a x 1) a x < 1 := by
  obtain ⟨hs, heq⟩ := mean_after_rank_one (st.A a) (st.b a) x hA hx
  have hbridge : RLRec.meanEst (RLRec.updateBandit st a x 1) a x
      = (((st.A a) + vecMulVec x x)⁻¹ *ᵥ (st.b a + x)) ⬝ᵥ x := by
    simp [RLRec.meanEst, RLRec.theta, RLRec.updateBandit, Function.update_same, one_smul]
  have hm' : RLRec.meanEst (RLRec.updateBandit st a x 1) a x
      = (RLRec.meanEst st a x + x ⬝ᵥ ((st.A a)⁻¹ *ᵥ x)) / (1 + x ⬝ᵥ ((st.A a)⁻¹ *ᵥ x)) := by
    rw [hbridge, heq]
    rfl
  have hPD' : ((RLRec.updateBandit st a x 1).A a).PosDef := by
    have := posDef_add_vecMulVec (st.A a) x hA
    simpa [RLRec.updateBandit, Function.update_same] using this
  have h1s : (0 : ℝ) < 1 + x ⬝ᵥ ((st.A a)⁻¹ *ᵥ x) := by linarith
  refine ⟨hPD', ?_, ?_⟩
  · rw [hm', lt_div_iff₀ h1s]
    nlinarith [hs, hm]
  · rw [hm', div_lt_one h1s]
    linarith

/-- Positive definiteness, mean below 1, and strict mean growth persist
along a run of consecutive +1.0-reward updates on one arm and context. -/
theorem upIter_invariant (st : RLRec.BanditState) (a : Fin 5) (x : Fin 11 → ℝ)
    (hA : (st.A a).PosDef) (hx : x ≠ 0) (hm : RLRec.meanEst st a x < 1) : ∀ n : ℕ,
    ((RLRec.upIter st a x n).A a).PosDef
    ∧ RLRec.meanEst (RLRec.upIter st a x n) a x < 1
    ∧ RLRec.meanEst (RLRec.upIter st a x n) a x
      < RLRec.meanEst (RLRec.upIter st a x (n+1)) a x := by
  intro n
  induction n with
  | zero =>
    obtain ⟨h1, h2, h3⟩ := thumbsUp_step st a x hA hx hm
    exact ⟨hA, hm, h2⟩
  | succ n ih =>
    obtain ⟨hPDn, hmn, _⟩ := ih
    obtain ⟨h1, h2, h3⟩ := thumbsUp_step (RLRec.upIter st a x n) a x hPDn hx hmn
    exact ⟨h1, h3, (thumbsUp_step (RLRec.upIter st a x (n+1)) a x h1 hx h3).2.1⟩

/-- C6 (amended): for every arm state with positive definite A (which
holds for every state the program can reach), every context x that is not
the zero vector, and every step count n, the n-th of a run of consecutive
thumbs-up (+1.0 reward) updates on the same arm and context strictly
increases that arm's mean estimate θᵀx — provided the mean estimate
starts below the thumbs-up reward value 1.0 (it then stays below 1.0
forever, approaching it monotonically).  Without that proviso the claim
is false: a state whose mean estimate exceeds 1 moves strictly downward
(see the counterexample). -/
theorem c6_thumbs_up_strictly_increases_mean (st : RLRec.BanditState) (a : Fin 5)
    (x : Fin 11 → ℝ) (hA : (st.A a).PosDef) (hx : x ≠ 0)
    (hm : RLRec.meanEst st a x < 1) (n : ℕ) :
    RLRec.meanEst (RLRec.upIter st a x n) a x
      < RLRec.meanEst (RLRec.upIter st a x (n+1)) a x :=
  (upIter_invariant st a x hA hx hm n).2.2

open Matrix in
/-- The unit context vector is nonzero. -/
theorem unitCtx_ne_zero : Inputs.unitCtx ≠ 0 := by
  intro h
  have h0 := congrFun h 0
  simp [Inputs.unitCtx, Pi.single_eq_same] at h0

open Matrix in
/-- Self dot product of the unit context vector. -/
theorem unitCtx_dot_self : Inputs.unitCtx ⬝ᵥ Inputs.unitCtx = 1 := by
  simp [Inputs.unitCtx, Matrix.dotProduct_single, Pi.single_eq_same]

/-- Witness for C6: from the fresh bandit (identity A, zero b, mean 0 < 1)
the first thumbs-up update on the unit context strictly raises the mean
estimate of arm 0. -/
theorem c6_thumbs_up_strictly_increases_mean_witness :
    (RLRec.initBandit.A 0).PosDef ∧ Inputs.unitCtx ≠ 0
    ∧ RLRec.meanEst RLRec.initBandit 0 Inputs.unitCtx < 1
    ∧ RLRec.meanEst (RLRec.upIter RLRec.initBandit 0 Inputs.unitCtx 0) 0 Inputs.unitCtx
      < RLRec.meanEst (RLRec.upIter RLRec.initBandit 0 Inputs.unitCtx 1) 0 Inputs.unitCtx := by
  have hA : (RLRec.initBandit.A 0).PosDef := Matrix.PosDef.one
  have hm : RLRec.meanEst RLRec.initBandit 0 Inputs.unitCtx < 1 := by
    simp only [RLRec.meanEst, RLRec.theta, RLRec.initBandit]
    rw [Matrix.mulVec_zero, Matrix.zero_dotProduct]
    norm_num
  exact ⟨hA, unitCtx_ne_zero, hm,
    c6_thumbs_up_strictly_increases_mean RLRec.initBandit 0 Inputs.unitCtx hA
      unitCtx_ne_zero hm 0⟩

open Matrix in
/-- Counterexample for C6 as stated: an arm state (A = identity,
b = 2·unitCtx) has mean estimate 2.0 on the unit context; one thumbs-up
update moves the mean to 1.5, a strict decrease — so a sequence of
consecutive thumbs-up updates does not strictly increase the mean
estimate for every arm state. -/
theorem c6_thumbs_up_mean_cex :
    RLRec.meanEst (RLRec.updateBandit Inputs.highMeanBandit 0 Inputs.unitCtx 1) 0
        Inputs.unitCtx
      < RLRec.meanEst Inputs.highMeanBandit 0 Inputs.unitCtx := by
  have hA : (Inputs.highMeanBandit.A 0).PosDef := Matrix.PosDef.one
  have h1 : RLRec.meanEst Inputs.highMeanBandit 0 Inputs.unitCtx = 2 := by
    simp only [RLRec.meanEst, RLRec.theta, Inputs.highMeanBandit]
    rw [inv_one, Matrix.one_mulVec, Matrix.smul_dotProduct, unitCtx_dot_self]
    norm_num
  have hAeq : Inputs.highMeanBandit.A 0 = (1 : Matrix (Fin 11) (Fin 11) ℝ) := rfl
  have hq : Inputs.unitCtx ⬝ᵥ ((Inputs.highMeanBandit.A 0)⁻¹ *ᵥ Inputs.unitCtx) = 1 := by
    rw [hAeq, inv_one, Matrix.one_mulVec, unitCtx_dot_self]
  have hstep := (mean_after_rank_one (Inputs.highMeanBandit.A 0) (Inputs.highMeanBandit.b 0)
    Inputs.unitCtx hA unitCtx_ne_zero).2
  have hbridge : RLRec.meanEst (RLRec.updateBandit Inputs.highMeanBandit 0 Inputs.unitCtx 1)
      0 Inputs.unitCtx
      = ((Inputs.highMeanBandit.A 0 + vecMulVec Inputs.unitCtx Inputs.unitCtx)⁻¹
          *ᵥ (Inputs.highMeanBandit.b 0 + Inputs.unitCtx)) ⬝ᵥ Inputs.unitCtx := by
    simp [RLRec.meanEst, RLRec.theta, RLRec.updateBandit, Function.update_same, one_smul]
  have hmean0 : (((Inputs.highMeanBandit.A 0)⁻¹ *ᵥ Inputs.highMeanBandit.b 0)
      ⬝ᵥ Inputs.unitCtx) = 2 := h1
  rw [hbridge, hstep, hmean0, hq, h1]
  norm_num

open Matrix in
/-- C4 (amended): select_action computes for each arm the UCB value
θ_aᵀx + α·√(xᵀA_a⁻¹x) rounded to 4 decimal places (the round(·, 4)
applied when the score is stored into the ucb_scores dict), and returns
the arm whose ROUNDED score is maximal, ties broken by lowest arm index;
update(action, context, reward) adds x xᵀ to exactly that arm's A and
reward·x to exactly that arm's b, leaving every other arm, the selection
counters and α unchanged. -/
theorem c4_select_argmax_update (st : RLRec.BanditState) (x : Fin 11 → ℝ) :
    (∀ j, RLRec.ucbScore st x j ≤ RLRec.ucbScore st x (RLRec.selectAction st x).1)
    ∧ (∀ j, RLRec.ucbScore st x j = RLRec.ucbScore st x (RLRec.selectAction st x).1 →
        (RLRec.selectAction st x).1 ≤ j)
    ∧ ((RLRec.selectAction st x).2.1 = fun a => RLRec.round4R (RLRec.ucbRaw st x a))
    ∧ (∀ a r, (RLRec.updateBandit st a x r).A a = st.A a + vecMulVec x x
        ∧ (RLRec.updateBandit st a x r).b a = st.b a + r • x
        ∧ (∀ j, j ≠ a → (RLRec.updateBandit st a x r).A j = st.A j
            ∧ (RLRec.updateBandit st a x r).b j = st.b j)
        ∧ (RLRec.updateBandit st a x r).alpha = st.alpha
        ∧ (RLRec.updateBandit st a x r).totalSelections = st.totalSelections) := by
  have hsel : (RLRec.selectAction st x).1 = RLRec.argmaxFirst (RLRec.ucbScore st x) := rfl
  obtain ⟨h1, h2⟩ := argmaxFirst_spec (RLRec.ucbScore st x)
  refine ⟨by rw [hsel]; exact h1, by rw [hsel]; exact h2, rfl, ?_⟩
  intro a r
  refine ⟨?_, ?_, fun j hj => ⟨?_, ?_⟩, rfl, rfl⟩
  · simp [RLRec.updateBandit, Function.update_same]
  · simp [RLRec.updateBandit, Function.update_same]
  · simp [RLRec.updateBandit, Function.update_noteq hj]
  · simp [RLRec.updateBandit, Function.update_noteq hj]

/-- Witness for C4 at the fresh bandit and the zero context: all rounded
scores tie, the tie resolves to an index no larger than any tying arm,
and update touches exactly the chosen arm. -/
theorem c4_select_argmax_update_witness :
    RLRec.ucbScore RLRec.initBandit 0 2
      = RLRec.ucbScore RLRec.initBandit 0 ((RLRec.selectAction RLRec.initBandit 0).1)
    ∧ (RLRec.selectAction RLRec.initBandit 0).1 ≤ 2
    ∧ (RLRec.updateBandit RLRec.initBandit 3 0 1).A 3
      = RLRec.initBandit.A 3 + Matrix.vecMulVec 0 0 := by
  have hsc : ∀ j, RLRec.ucbScore RLRec.initBandit 0 j = 0 := by
    intro j
    simp only [RLRec.ucbScore, RLRec.ucbRaw, RLRec.meanEst, RLRec.theta, RLRec.quadForm,
      RLRec.round4R, RLRec.initBandit]
    rw [Matrix.mulVec_zero, Matrix.dotProduct_zero, Real.sqrt_zero]
    norm_num [round_eq]
  have h := c4_select_argmax_update RLRec.initBandit 0
  have htie : RLRec.ucbScore RLRec.initBandit 0 2
      = RLRec.ucbScore RLRec.initBandit 0 ((RLRec.selectAction RLRec.initBandit 0).1) := by
    rw [hsc 2, hsc _]
  exact ⟨htie, h.2.1 2 htie, (h.2.2.2 3 1).1⟩

open Matrix in
/-- Counterexample for C4 as stated: with arm 1 holding raw UCB value
0.50003 on the unit context and all other arms 0.5, every score rounds to
0.5000, so select_action returns arm 0 — not the argmax of the UCB
formula θᵀx + α·√(xᵀA⁻¹x), which is uniquely arm 1 (its raw score is
strictly larger than the returned arm's). -/
theorem c4_select_rounding_cex :
    (RLRec.selectAction Inputs.roundTieBandit Inputs.unitCtx).1 = 0
    ∧ RLRec.ucbRaw Inputs.roundTieBandit Inputs.unitCtx 0
      < RLRec.ucbRaw Inputs.roundTieBandit Inputs.unitCtx 1 := by
  have hA : ∀ j, Inputs.roundTieBandit.A j = (1 : Matrix (Fin 11) (Fin 11) ℝ) :=
    fun _ => rfl
  have hb : ∀ j, Inputs.roundTieBandit.b j ⬝ᵥ Inputs.unitCtx
      = if j = 1 then (3/100000 : ℝ) else 0 := by
    intro j
    by_cases hj : j = 1
    · rw [if_pos hj]
      have hbj : Inputs.roundTieBandit.b j = (3/100000 : ℝ) • Inputs.unitCtx := by
        show (if j = 1 then (3/100000 : ℝ) • Inputs.unitCtx else 0)
          = (3/100000 : ℝ) • Inputs.unitCtx
        rw [if_pos hj]
      rw [hbj, Matrix.smul_dotProduct, unitCtx_dot_self, smul_eq_mul, mul_one]
    · rw [if_neg hj]
      have hbj : Inputs.roundTieBandit.b j = 0 := by
        show (if j = 1 then (3/100000 : ℝ) • Inputs.unitCtx else 0) = 0
        rw [if_neg hj]
      rw [hbj, Matrix.zero_dotProduct]
  have hmean : ∀ j, RLRec.meanEst Inputs.roundTieBandit j Inputs.unitCtx
      = if j = 1 then (3/100000 : ℝ) else 0 := by
    intro j
    simp only [RLRec.meanEst, RLRec.theta]
    rw [hA j, inv_one, Matrix.one_mulVec]
    exact hb j
  have hquad : ∀ j, RLRec.quadForm Inputs.roundTieBandit j Inputs.unitCtx = 1 := by
    intro j
    simp only [RLRec.quadForm]
    rw [hA j, inv_one, Matrix.one_mulVec, unitCtx_dot_self]
  have halpha : Inputs.roundTieBandit.alpha = 1/2 := rfl
  have hraw : ∀ j, RLRec.ucbRaw Inputs.roundTieBandit Inputs.unitCtx j
      = (if j = 1 then (3/100000 : ℝ) else 0) + 1/2 := by
    intro j
    simp only [RLRec.ucbRaw]
    rw [hmean j, hquad j, halpha, Real.sqrt_one, mul_one]
  have hscore : ∀ j, RLRec.ucbScore Inputs.roundTieBandit Inputs.unitCtx j = 1/2 := by
    intro j
    simp only [RLRec.ucbScore, RLRec.round4R]
    rw [hraw j]
    by_cases hj : j = 1
    · rw [if_pos hj]
      norm_num [round_eq]
    · rw [if_neg hj]
      norm_num [round_eq]
  constructor
  · have hsel : (RLRec.selectAction Inputs.roundTieBandit Inputs.unitCtx).1
        = RLRec.argmaxFirst (RLRec.ucbScore Inputs.roundTieBandit Inputs.unitCtx) := rfl
    rw [hsel, funext hscore]
    simp [RLRec.argmaxFirst, lt_self_iff_false]
  · rw [hraw 0, hraw 1]
    norm_num

/-- C7 (amended): a run that finds zero feedback records at or after the
cutoff returns the report dict of the empty branch — status
no_new_feedback with the count under the key records (= 0); the key
records_processed appears only in successful runs — changes neither the
arm statistics nor the retrieval preference store, and does not raise;
running again with no new feedback gives the identical outcome. -/
theorem c7_empty_rlhf_run_noop (store : List RLHF.FeedbackRecord) (sinceTs : ℚ)
    (arms : List (String × RLHF.ArmStats)) (prefs : List (String × RLHF.PrefEntry))
    (now : ℚ) (h : RLHF.loadSince store sinceTs = []) :
    RLHF.run store sinceTs arms prefs now
      = ({ status := "no_new_feedback", records := some 0, recordsProcessed := none },
         arms, prefs)
    ∧ RLHF.run store sinceTs (RLHF.run store sinceTs arms prefs now).2.1
        (RLHF.run store sinceTs arms prefs now).2.2 now
      = ({ status := "no_new_feedback", records := some 0, recordsProcessed := none },
         arms, prefs) := by
  have hrun : RLHF.run store sinceTs arms prefs now
      = ({ status := "no_new_feedback", records := some 0, recordsProcessed := none },
         arms, prefs) := by
    simp only [RLHF.run, h]
    rfl
  refine ⟨hrun, ?_⟩
  rw [hrun]
  exact hrun

/-- Witness for C7: a store holding one record with timestamp 0 against
cutoff 1 loads nothing, and the run reports no_new_feedback leaving the
fresh arm table unchanged. -/
theorem c7_empty_rlhf_run_noop_witness :
    RLHF.loadSince [Inputs.staleRecord] 1 = []
    ∧ (RLHF.run [Inputs.staleRecord] 1 RLHF.initArms [] 10).1.status = "no_new_feedback"
    ∧ (RLHF.run [Inputs.staleRecord] 1 RLHF.initArms [] 10).2.1 = RLHF.initArms := by
  have h : RLHF.loadSince [Inputs.staleRecord] 1 = [] := by
    norm_num [RLHF.loadSince, List.filter_cons, Inputs.staleRecord]
  have hrun := (c7_empty_rlhf_run_noop [Inputs.staleRecord] 1 RLHF.initArms [] 10 h).1
  exact ⟨h, by rw [hrun], by rw [hrun]⟩

/-- Counterexample for C7 as stated: the empty-branch report has no
records_processed entry (that key exists only in the success-branch
report), so the report is not one with records_processed = 0. -/
theorem c7_records_processed_key_cex :
    (RLHF.run [] 0 RLHF.initArms [] 0).1.status = "no_new_feedback"
    ∧ (RLHF.run [] 0 RLHF.initArms [] 0).1.recordsProcessed ≠ some 0 := by
  have hstat : (RLHF.run [] 0 RLHF.initArms [] 0).1.status = "no_new_feedback" := rfl
  have hrp : (RLHF.run [] 0 RLHF.initArms [] 0).1.recordsProcessed = none := rfl
  refine ⟨hstat, ?_⟩
  rw [hrp]
  simp

/-- C10: record_feedback with a recorded prior (action, context) updates
that arm with reward +1.0 exactly when the rating string is "up" and
−1.0 for every other rating string, and increments the session's feedback
count by exactly one (adding the same reward to the feedback sum); with
no recorded prior selection it changes neither the bandit nor the session
statistics. -/
theorem c10_record_feedback_attribution (bandit : RLRec.BanditState)
    (st : RLRec.SessionRLState) (rating : String) :
    (∀ i x, st.lastActionIdx = some i → st.lastContext = some x →
      RLRec.recordFeedback bandit st rating
        = (RLRec.updateBandit bandit i x (if rating == "up" then 1 else -1),
           { st with
              feedbackSum := st.feedbackSum + (if rating == "up" then 1 else -1),
              feedbackCount := st.feedbackCount + 1 }))
    ∧ ((st.lastActionIdx = none ∨ st.lastContext = none) →
        RLRec.recordFeedback bandit st rating = (bandit, st)) := by
  constructor
  · intro i x hi hx
    simp [RLRec.recordFeedback, hi, hx]
  · rintro (h | h) <;>
      cases ha : st.lastActionIdx <;> cases hc : st.lastContext <;>
        simp_all [RLRec.recordFeedback]

/-- Witness for C10: a session attributed to arm 0 rated with the string
"sideways" (neither "up" nor "down") receives reward −1.0 and one more
feedback sample. -/
theorem c10_record_feedback_attribution_witness :
    Inputs.attributedSession.lastActionIdx = some 0
    ∧ Inputs.attributedSession.lastContext = some Inputs.unitCtx
    ∧ RLRec.recordFeedback RLRec.initBandit Inputs.attributedSession "sideways"
      = (RLRec.updateBandit RLRec.initBandit 0 Inputs.unitCtx (-1),
         { Inputs.attributedSession with
            feedbackSum := Inputs.attributedSession.feedbackSum + (-1),
            feedbackCount := Inputs.attributedSession.feedbackCount + 1 }) := by
  refine ⟨rfl, rfl, ?_⟩
  have h := (c10_record_feedback_attribution RLRec.initBandit Inputs.attributedSession
    "sideways").1 0 Inputs.unitCtx rfl rfl
  rw [h, if_neg (by decide : ¬((("sideways" : String) == "up") = true))]
